import Mathlib

/-!
Verification of the rj class-file / bytecode decoder (crate rj_core).

Shallow embedding conventions:
* A Rust byte slice is a `List Nat` whose elements are byte values.
* Every decoder is a function from the input list to `PResult ε α`,
  which is either `ok rest value` (the Rust `Ok((rest, value))`),
  `err e` (a typed error), or `panic msg` (a Rust panic such as the
  `unimplemented!` arms of `parse_instruction`; panics propagate
  through `pbind` exactly as Rust panics propagate through `?`).
* Machine integers are `Nat` (unsigned) or `Int` (signed, obtained by
  two's-complement reinterpretation `toSigned`); IEEE floats are
  modelled by their big-endian bit pattern as a `Nat`, which is
  faithful because `f32::from_be_bytes`/`f64::from_be_bytes` are
  bijections between bit patterns and float values.
* The `attribute_name_index as usize - 1` computation in
  `parse_attribute` is modelled with release-mode wrapping semantics
  (`usize::wrapping_sub`), i.e. arithmetic modulo 2^64.
-/

namespace RJ

/-- parser::ParseError (src/crates/rj_core/src/parser/error.rs). -/
inductive ParseError where
  | eof : ParseError
deriving DecidableEq, Repr

/-- ClassParseError (src/crates/rj_core/src/class/error.rs).  The
`utf8Error` variant is reachable only from owned-string decoding,
which no decoder modelled here performs. -/
inductive ClassParseError where
  | parseError : ParseError → ClassParseError
  | utf8Error : ClassParseError
  | invalidConstantTag : Nat → ClassParseError
  | invalidConstantPoolIndex : Nat → ClassParseError
  | invalidFieldDescriptor : ClassParseError
deriving DecidableEq, Repr

/-- InstructionParseError (src/crates/rj_core/src/asm/error.rs). -/
inductive InstructionParseError where
  | parseError : ParseError → InstructionParseError
  | unknownInstruction : Nat → InstructionParseError
deriving DecidableEq, Repr

/-- Outcome of a Rust decoding function: `Ok((rest, value))`, a typed
error, or a panic (for the `unimplemented!` arms). -/
inductive PResult (ε α : Type) where
  | ok : List Nat → α → PResult ε α
  | err : ε → PResult ε α
  | panic : String → PResult ε α
deriving DecidableEq, Repr

/-- Sequencing of decoders; models `let (input, x) = f(input)?;`.
Errors and panics propagate. -/
def pbind {ε α β : Type} (x : PResult ε α) (f : List Nat → α → PResult ε β) :
    PResult ε β :=
  match x with
  | .ok rest v => f rest v
  | .err e => .err e
  | .panic m => .panic m

/-- Models the `From<parser::ParseError>` conversion performed by `?`
when a primitive is used inside a class-level decoder. -/
def liftC {α : Type} (x : PResult ParseError α) : PResult ClassParseError α :=
  match x with
  | .ok rest v => .ok rest v
  | .err e => .err (.parseError e)
  | .panic m => .panic m

/-- Models the `From<parser::ParseError>` conversion performed by `?`
inside `parse_instruction`. -/
def liftI {α : Type} (x : PResult ParseError α) : PResult InstructionParseError α :=
  match x with
  | .ok rest v => .ok rest v
  | .err e => .err (.parseError e)
  | .panic m => .panic m

@[simp] theorem pbind_ok {ε α β : Type} (r : List Nat) (v : α)
    (f : List Nat → α → PResult ε β) : pbind (.ok r v) f = f r v := rfl

@[simp] theorem pbind_err {ε α β : Type} (e : ε)
    (f : List Nat → α → PResult ε β) : pbind (.err e) f = .err e := rfl

@[simp] theorem pbind_panic {ε α β : Type} (m : String)
    (f : List Nat → α → PResult ε β) : pbind (.panic m) f = .panic m := rfl

@[simp] theorem liftC_ok {α : Type} (r : List Nat) (v : α) :
    liftC (.ok r v) = (.ok r v : PResult ClassParseError α) := rfl

@[simp] theorem liftC_err {α : Type} (e : ParseError) :
    liftC (.err e) = (.err (.parseError e) : PResult ClassParseError α) := rfl

@[simp] theorem liftI_ok {α : Type} (r : List Nat) (v : α) :
    liftI (.ok r v) = (.ok r v : PResult InstructionParseError α) := rfl

@[simp] theorem liftI_err {α : Type} (e : ParseError) :
    liftI (.err e) = (.err (.parseError e) : PResult InstructionParseError α) := rfl

/-! ## Byte cursor primitives (src/crates/rj_core/src/parser/primitive.rs)

The Rust functions check `input.len()` and then index the first N
bytes; on a `List` the equivalent is a pattern match on the first N
elements (both fail with `Eof` exactly when fewer than N bytes
remain). -/

/-- `bytes(input, length)`: slice off `length` bytes verbatim. -/
def bytes (input : List Nat) (length : Nat) : PResult ParseError (List Nat) :=
  if input.length < length then .err .eof
  else .ok (input.drop length) (input.take length)

/-- Two's-complement reinterpretation of a `w`-bit unsigned value. -/
def toSigned (w : Nat) (n : Nat) : Int :=
  if n < 2 ^ (w - 1) then (n : Int) else (n : Int) - 2 ^ w

/-- `u16::from_be_bytes([b1, b0])`. -/
def u16_of (b1 b0 : Nat) : Nat := 256 * b1 + b0

/-- `u32::from_be_bytes([b3, b2, b1, b0])`. -/
def u32_of (b3 b2 b1 b0 : Nat) : Nat := 256 * (256 * (256 * b3 + b2) + b1) + b0

/-- `u64::from_be_bytes` of eight bytes, most significant first. -/
def u64_of (b7 b6 b5 b4 b3 b2 b1 b0 : Nat) : Nat :=
  256 * (256 * (256 * (256 * (256 * (256 * (256 * b7 + b6) + b5) + b4) + b3) + b2)
    + b1) + b0

/-- `be_u8`. -/
def be_u8 : List Nat → PResult ParseError Nat
  | [] => .err .eof
  | b :: rest => .ok rest b

/-- `be_u16`. -/
def be_u16 : List Nat → PResult ParseError Nat
  | b1 :: b0 :: rest => .ok rest (u16_of b1 b0)
  | _ => .err .eof

/-- `be_u32`. -/
def be_u32 : List Nat → PResult ParseError Nat
  | b3 :: b2 :: b1 :: b0 :: rest => .ok rest (u32_of b3 b2 b1 b0)
  | _ => .err .eof

/-- `be_u64`. -/
def be_u64 : List Nat → PResult ParseError Nat
  | b7 :: b6 :: b5 :: b4 :: b3 :: b2 :: b1 :: b0 :: rest =>
      .ok rest (u64_of b7 b6 b5 b4 b3 b2 b1 b0)
  | _ => .err .eof

/-- `be_i8` (`input[0] as i8`). -/
def be_i8 : List Nat → PResult ParseError Int
  | [] => .err .eof
  | b :: rest => .ok rest (toSigned 8 b)

/-- `be_i16` (`i16::from_be_bytes`). -/
def be_i16 : List Nat → PResult ParseError Int
  | b1 :: b0 :: rest => .ok rest (toSigned 16 (u16_of b1 b0))
  | _ => .err .eof

/-- `be_i32` (`i32::from_be_bytes`). -/
def be_i32 : List Nat → PResult ParseError Int
  | b3 :: b2 :: b1 :: b0 :: rest => .ok rest (toSigned 32 (u32_of b3 b2 b1 b0))
  | _ => .err .eof

/-- `be_i64` (`i64::from_be_bytes`). -/
def be_i64 : List Nat → PResult ParseError Int
  | b7 :: b6 :: b5 :: b4 :: b3 :: b2 :: b1 :: b0 :: rest =>
      .ok rest (toSigned 64 (u64_of b7 b6 b5 b4 b3 b2 b1 b0))
  | _ => .err .eof

/-- `be_f32`; the decoded `f32` is modelled by its 32-bit pattern. -/
def be_f32 : List Nat → PResult ParseError Nat
  | b3 :: b2 :: b1 :: b0 :: rest => .ok rest (u32_of b3 b2 b1 b0)
  | _ => .err .eof

/-- `be_f64`; the decoded `f64` is modelled by its 64-bit pattern. -/
def be_f64 : List Nat → PResult ParseError Nat
  | b7 :: b6 :: b5 :: b4 :: b3 :: b2 :: b1 :: b0 :: rest =>
      .ok rest (u64_of b7 b6 b5 b4 b3 b2 b1 b0)
  | _ => .err .eof

/-- Position of the first occurrence of `pat` as a contiguous
subsequence of `input` (the `windows/position` search in
`take_until`). -/
def find_sub (input pat : List Nat) : Option Nat :=
  match input with
  | [] => if pat.length = 0 then some 0 else none
  | _ :: tl =>
      if input.length < pat.length then none
      else if input.take pat.length = pat then some 0
      else (find_sub tl pat).map (· + 1)

/-- `take_until(input, bytes)`: prefix before the first occurrence of
the delimiter, remainder past it; `Eof` if absent. -/
def take_until (input pat : List Nat) : PResult ParseError (List Nat) :=
  match find_sub input pat with
  | none => .err .eof
  | some p => .ok (input.drop (p + pat.length)) (input.take p)

/-! ## Specification-side value readers (for claim C5) -/

/-- Big-endian interpretation of a byte string. -/
def beNat (l : List Nat) : Nat := l.foldl (fun a b => 256 * a + b) 0

/-- Readers of unsigned values (and floats-as-bit-patterns). -/
def USpec (f : List Nat → PResult ParseError Nat) (N : Nat) (input : List Nat) : Prop :=
  (input.length < N → f input = .err .eof) ∧
  (N ≤ input.length → f input = .ok (input.drop N) (beNat (input.take N)))

/-- Readers of signed values: two's-complement sign extension. -/
def ISpec (f : List Nat → PResult ParseError Int) (N : Nat) (input : List Nat) : Prop :=
  (input.length < N → f input = .err .eof) ∧
  (N ≤ input.length → f input = .ok (input.drop N) (toSigned (8 * N) (beNat (input.take N))))

theorem beNat_nil : beNat [] = 0 := rfl

theorem beNat_append (l₁ l₂ : List Nat) :
    beNat (l₁ ++ l₂) = l₂.foldl (fun a b => 256 * a + b) (beNat l₁) := by
  simp [beNat, List.foldl_append]

/-- Claim C5: every fixed-width primitive reader of width N fails with
`EndOfInput` on fewer than N bytes, and on at least N bytes returns
the big-endian interpretation of the first N bytes (with
two's-complement sign extension for the signed readers, and the raw
bit pattern for the float readers) together with the input minus its
first N bytes. -/
theorem c5_primitive_readers (input : List Nat) :
    USpec be_u8 1 input ∧ USpec be_u16 2 input ∧ USpec be_u32 4 input ∧
    USpec be_u64 8 input ∧ ISpec be_i8 1 input ∧ ISpec be_i16 2 input ∧
    ISpec be_i32 4 input ∧ ISpec be_i64 8 input ∧ USpec be_f32 4 input ∧
    USpec be_f64 8 input := by
  refine ⟨⟨?_, ?_⟩, ⟨?_, ?_⟩, ⟨?_, ?_⟩, ⟨?_, ?_⟩, ⟨?_, ?_⟩, ⟨?_, ?_⟩, ⟨?_, ?_⟩,
    ⟨?_, ?_⟩, ⟨?_, ?_⟩, ⟨?_, ?_⟩⟩ <;> intro h <;>
  · rcases input with _ | ⟨b7, _ | ⟨b6, _ | ⟨b5, _ | ⟨b4, _ | ⟨b3, _ | ⟨b2, _ | ⟨b1, _ | ⟨b0, rest⟩⟩⟩⟩⟩⟩⟩⟩ <;>
      simp_all [be_u8, be_u16, be_u32, be_u64, be_i8, be_i16, be_i32, be_i64,
        be_f32, be_f64, beNat, u16_of, u32_of, u64_of, List.length_cons] <;>
      omega

/-- Claim C5 witness: concrete sign-extension checks obtained from the
theorem, including i8 0xFF → −1 and i16 0xFFFF → −1. -/
theorem c5_primitive_readers_witness :
    be_i8 [0xff] = .ok [] (-1) ∧ be_i16 [0xff, 0xff] = .ok [] (-1) ∧
    be_u16 [0x12, 0x34, 0x56] = .ok [0x56] 0x1234 ∧ be_u16 [0x12] = .err .eof := by
  refine ⟨?_, ?_, ?_, ?_⟩
  · have h := ((c5_primitive_readers [0xff]).2.2.2.2.1).2 (by decide)
    simpa using h
  · have h := ((c5_primitive_readers [0xff, 0xff]).2.2.2.2.2.1).2 (by decide)
    simpa using h
  · have h := ((c5_primitive_readers [0x12, 0x34, 0x56]).2.1).2 (by decide)
    simpa [beNat, u16_of] using h
  · have h := ((c5_primitive_readers [0x12]).2.1).1 (by decide)
    simpa using h

/-! ## Constant pool (src/crates/rj_core/src/class/constant.rs) -/

/-- ConstantTag. -/
inductive ConstantTag where
  | utf8 | integer | float | long | double | classRef | string
  | fieldref | methodref | interfaceMethodref | nameAndType
  | methodHandle | methodType | dynamic | invokeDynamic | module | package
deriving DecidableEq, Repr

/-- `ConstantTag::from_u8`; the Rust `match` over the literal tag
values, written as the equivalent chain of equality tests. -/
def ConstantTag.from_u8 (value : Nat) : Option ConstantTag :=
  if value = 1 then some .utf8
  else if value = 3 then some .integer
  else if value = 4 then some .float
  else if value = 5 then some .long
  else if value = 6 then some .double
  else if value = 7 then some .classRef
  else if value = 8 then some .string
  else if value = 9 then some .fieldref
  else if value = 10 then some .methodref
  else if value = 11 then some .interfaceMethodref
  else if value = 12 then some .nameAndType
  else if value = 15 then some .methodHandle
  else if value = 16 then some .methodType
  else if value = 17 then some .dynamic
  else if value = 18 then some .invokeDynamic
  else if value = 19 then some .module
  else if value = 20 then some .package
  else none

/-- Constant (the Rust `Class` variant is named `classRef` here;
float/double values are IEEE bit patterns, see the header comment). -/
inductive Constant where
  | utf8 (value : List Nat)
  | integer (value : Int)
  | float (bits : Nat)
  | long (value : Int)
  | double (bits : Nat)
  | classRef (name_index : Nat)
  | string (string_index : Nat)
  | fieldref (class_index name_and_type_index : Nat)
  | methodref (class_index name_and_type_index : Nat)
  | interfaceMethodref (class_index name_and_type_index : Nat)
  | nameAndType (name_index descriptor_index : Nat)
  | methodHandle (reference_kind : Nat) (reference_index : Nat)
  | methodType (descriptor_index : Nat)
  | dynamic (bootstrap_method_attr_index name_and_type_index : Nat)
  | invokeDynamic (bootstrap_method_attr_index name_and_type_index : Nat)
  | module (name_index : Nat)
  | package (name_index : Nat)
deriving DecidableEq, Repr

/-- `parse_utf8`: u16 length then that many raw bytes. -/
def parse_utf8 (input : List Nat) : PResult ClassParseError Constant :=
  pbind (liftC (be_u16 input)) fun input length =>
  pbind (liftC (bytes input length)) fun input value =>
  .ok input (.utf8 value)

/-- `parse_integer`. -/
def parse_integer (input : List Nat) : PResult ClassParseError Constant :=
  pbind (liftC (be_i32 input)) fun input value => .ok input (.integer value)

/-- `parse_float`. -/
def parse_float (input : List Nat) : PResult ClassParseError Constant :=
  pbind (liftC (be_f32 input)) fun input value => .ok input (.float value)

/-- `parse_long`. -/
def parse_long (input : List Nat) : PResult ClassParseError Constant :=
  pbind (liftC (be_i64 input)) fun input value => .ok input (.long value)

/-- `parse_double`. -/
def parse_double (input : List Nat) : PResult ClassParseError Constant :=
  pbind (liftC (be_f64 input)) fun input value => .ok input (.double value)

/-- `parse_class`. -/
def parse_class (input : List Nat) : PResult ClassParseError Constant :=
  pbind (liftC (be_u16 input)) fun input name_index => .ok input (.classRef name_index)

/-- `parse_string`. -/
def parse_string (input : List Nat) : PResult ClassParseError Constant :=
  pbind (liftC (be_u16 input)) fun input string_index => .ok input (.string string_index)

/-- `parse_fieldref`. -/
def parse_fieldref (input : List Nat) : PResult ClassParseError Constant :=
  pbind (liftC (be_u16 input)) fun input class_index =>
  pbind (liftC (be_u16 input)) fun input name_and_type_index =>
  .ok input (.fieldref class_index name_and_type_index)

/-- `parse_methodref`. -/
def parse_methodref (input : List Nat) : PResult ClassParseError Constant :=
  pbind (liftC (be_u16 input)) fun input class_index =>
  pbind (liftC (be_u16 input)) fun input name_and_type_index =>
  .ok input (.methodref class_index name_and_type_index)

/-- `parse_interface_methodref`. -/
def parse_interface_methodref (input : List Nat) : PResult ClassParseError Constant :=
  pbind (liftC (be_u16 input)) fun input class_index =>
  pbind (liftC (be_u16 input)) fun input name_and_type_index =>
  .ok input (.interfaceMethodref class_index name_and_type_index)

/-- `parse_name_and_type`. -/
def parse_name_and_type (input : List Nat) : PResult ClassParseError Constant :=
  pbind (liftC (be_u16 input)) fun input name_index =>
  pbind (liftC (be_u16 input)) fun input descriptor_index =>
  .ok input (.nameAndType name_index descriptor_index)

/-- `parse_method_handle`. -/
def parse_method_handle (input : List Nat) : PResult ClassParseError Constant :=
  pbind (liftC (be_u8 input)) fun input reference_kind =>
  pbind (liftC (be_u16 input)) fun input reference_index =>
  .ok input (.methodHandle reference_kind reference_index)

/-- `parse_method_type`. -/
def parse_method_type (input : List Nat) : PResult ClassParseError Constant :=
  pbind (liftC (be_u16 input)) fun input descriptor_index =>
  .ok input (.methodType descriptor_index)

/-- `parse_dynamic`. -/
def parse_dynamic (input : List Nat) : PResult ClassParseError Constant :=
  pbind (liftC (be_u16 input)) fun input bootstrap_method_attr_index =>
  pbind (liftC (be_u16 input)) fun input name_and_type_index =>
  .ok input (.dynamic bootstrap_method_attr_index name_and_type_index)

/-- `parse_invoke_dynamic`. -/
def parse_invoke_dynamic (input : List Nat) : PResult ClassParseError Constant :=
  pbind (liftC (be_u16 input)) fun input bootstrap_method_attr_index =>
  pbind (liftC (be_u16 input)) fun input name_and_type_index =>
  .ok input (.invokeDynamic bootstrap_method_attr_index name_and_type_index)

/-- `parse_module`. -/
def parse_module (input : List Nat) : PResult ClassParseError Constant :=
  pbind (liftC (be_u16 input)) fun input name_index => .ok input (.module name_index)

/-- `parse_package`. -/
def parse_package (input : List Nat) : PResult ClassParseError Constant :=
  pbind (liftC (be_u16 input)) fun input name_index => .ok input (.package name_index)

/-- `parse_constant`: one tag byte selecting a record decoder, or
`InvalidConstantTag` on an unrecognized tag. -/
def parse_constant (input : List Nat) : PResult ClassParseError Constant :=
  pbind (liftC (be_u8 input)) fun input tag =>
  match ConstantTag.from_u8 tag with
  | none => .err (.invalidConstantTag tag)
  | some .utf8 => parse_utf8 input
  | some .integer => parse_integer input
  | some .float => parse_float input
  | some .long => parse_long input
  | some .double => parse_double input
  | some .classRef => parse_class input
  | some .string => parse_string input
  | some .fieldref => parse_fieldref input
  | some .methodref => parse_methodref input
  | some .interfaceMethodref => parse_interface_methodref input
  | some .nameAndType => parse_name_and_type input
  | some .methodHandle => parse_method_handle input
  | some .methodType => parse_method_type input
  | some .dynamic => parse_dynamic input
  | some .invokeDynamic => parse_invoke_dynamic input
  | some .module => parse_module input
  | some .package => parse_package input

/-- The 17 recognized constant-pool tag bytes. -/
def constantTags : List Nat := [1, 3, 4, 5, 6, 7, 8, 9, 10, 11, 12, 15, 16, 17, 18, 19, 20]

/-- A class-level decoding outcome that is a success or an
end-of-input failure (never any other error, never a panic). -/
def OkOrEof {α : Type} (x : PResult ClassParseError α) : Prop :=
  x = .err (.parseError .eof) ∨ ∃ r v, x = .ok r v

theorem okOrEof_pbind {α β : Type} {x : PResult ClassParseError α}
    {f : List Nat → α → PResult ClassParseError β}
    (hx : OkOrEof x) (hf : ∀ r v, OkOrEof (f r v)) : OkOrEof (pbind x f) := by
  rcases hx with h | ⟨r, v, h⟩
  · subst h; exact Or.inl rfl
  · subst h; exact hf r v

theorem okOrEof_ok {α : Type} (r : List Nat) (v : α) :
    OkOrEof (.ok r v : PResult ClassParseError α) := Or.inr ⟨r, v, rfl⟩

theorem okOrEof_liftC_be_u8 (input : List Nat) : OkOrEof (liftC (be_u8 input)) := by
  cases input <;> simp [be_u8, OkOrEof]

theorem okOrEof_liftC_be_u16 (input : List Nat) : OkOrEof (liftC (be_u16 input)) := by
  rcases input with _ | ⟨a, _ | ⟨b, r⟩⟩ <;> simp [be_u16, OkOrEof]

theorem okOrEof_liftC_be_i32 (input : List Nat) : OkOrEof (liftC (be_i32 input)) := by
  rcases input with _ | ⟨a, _ | ⟨b, _ | ⟨c, _ | ⟨d, r⟩⟩⟩⟩ <;> simp [be_i32, OkOrEof]

theorem okOrEof_liftC_be_f32 (input : List Nat) : OkOrEof (liftC (be_f32 input)) := by
  rcases input with _ | ⟨a, _ | ⟨b, _ | ⟨c, _ | ⟨d, r⟩⟩⟩⟩ <;> simp [be_f32, OkOrEof]

theorem okOrEof_liftC_be_i64 (input : List Nat) : OkOrEof (liftC (be_i64 input)) := by
  rcases input with _ | ⟨a, _ | ⟨b, _ | ⟨c, _ | ⟨d, _ | ⟨e, _ | ⟨f, _ | ⟨g, _ | ⟨h, r⟩⟩⟩⟩⟩⟩⟩⟩ <;>
    simp [be_i64, OkOrEof]

theorem okOrEof_liftC_be_f64 (input : List Nat) : OkOrEof (liftC (be_f64 input)) := by
  rcases input with _ | ⟨a, _ | ⟨b, _ | ⟨c, _ | ⟨d, _ | ⟨e, _ | ⟨f, _ | ⟨g, _ | ⟨h, r⟩⟩⟩⟩⟩⟩⟩⟩ <;>
    simp [be_f64, OkOrEof]

theorem okOrEof_liftC_bytes (input : List Nat) (n : Nat) :
    OkOrEof (liftC (bytes input n)) := by
  by_cases h : input.length < n <;> simp [bytes, h, OkOrEof]

/-- Each of the 17 record decoders fails only with `EndOfInput`. -/
theorem record_decoders_okOrEof (input : List Nat) :
    OkOrEof (parse_utf8 input) ∧ OkOrEof (parse_integer input) ∧
    OkOrEof (parse_float input) ∧ OkOrEof (parse_long input) ∧
    OkOrEof (parse_double input) ∧ OkOrEof (parse_class input) ∧
    OkOrEof (parse_string input) ∧ OkOrEof (parse_fieldref input) ∧
    OkOrEof (parse_methodref input) ∧ OkOrEof (parse_interface_methodref input) ∧
    OkOrEof (parse_name_and_type input) ∧ OkOrEof (parse_method_handle input) ∧
    OkOrEof (parse_method_type input) ∧ OkOrEof (parse_dynamic input) ∧
    OkOrEof (parse_invoke_dynamic input) ∧ OkOrEof (parse_module input) ∧
    OkOrEof (parse_package input) := by
  refine ⟨?_, ?_, ?_, ?_, ?_, ?_, ?_, ?_, ?_, ?_, ?_, ?_, ?_, ?_, ?_, ?_, ?_⟩ <;>
  · simp only [parse_utf8, parse_integer, parse_float, parse_long, parse_double,
      parse_class, parse_string, parse_fieldref, parse_methodref,
      parse_interface_methodref, parse_name_and_type, parse_method_handle,
      parse_method_type, parse_dynamic, parse_invoke_dynamic, parse_module,
      parse_package]
    repeat'
      first
      | exact okOrEof_liftC_be_u8 _
      | exact okOrEof_liftC_be_u16 _
      | exact okOrEof_liftC_be_i32 _
      | exact okOrEof_liftC_be_f32 _
      | exact okOrEof_liftC_be_i64 _
      | exact okOrEof_liftC_be_f64 _
      | exact okOrEof_liftC_bytes _ _
      | exact okOrEof_ok _ _
      | refine okOrEof_pbind ?_ fun r v => ?_

theorem from_u8_eq_none_of_not_mem {b : Nat} (h : b ∉ constantTags) :
    ConstantTag.from_u8 b = none := by
  simp only [constantTags, List.mem_cons, List.not_mem_nil, or_false, not_or] at h
  obtain ⟨h1, h3, h4, h5, h6, h7, h8, h9, h10, h11, h12, h15, h16, h17, h18, h19, h20⟩ := h
  simp [ConstantTag.from_u8, h1, h3, h4, h5, h6, h7, h8, h9, h10, h11, h12, h15,
    h16, h17, h18, h19, h20]

/-- Claim C6: on a non-empty input with first byte `b`,
`parse_constant` fails with `InvalidConstantTag b` iff `b` is outside
the 17-element tag set; for `b` inside the set the dispatched record
decoder either succeeds or fails with `EndOfInput` (never with
`InvalidConstantTag`). -/
theorem c6_constant_tag_dispatch (b : Nat) (rest : List Nat) :
    (parse_constant (b :: rest) = .err (.invalidConstantTag b) ↔ b ∉ constantTags) ∧
    (b ∈ constantTags →
      parse_constant (b :: rest) = .err (.parseError .eof) ∨
      ∃ r c, parse_constant (b :: rest) = .ok r c) := by
  have hstep : parse_constant (b :: rest) =
      match ConstantTag.from_u8 b with
      | none => .err (.invalidConstantTag b)
      | some .utf8 => parse_utf8 rest
      | some .integer => parse_integer rest
      | some .float => parse_float rest
      | some .long => parse_long rest
      | some .double => parse_double rest
      | some .classRef => parse_class rest
      | some .string => parse_string rest
      | some .fieldref => parse_fieldref rest
      | some .methodref => parse_methodref rest
      | some .interfaceMethodref => parse_interface_methodref rest
      | some .nameAndType => parse_name_and_type rest
      | some .methodHandle => parse_method_handle rest
      | some .methodType => parse_method_type rest
      | some .dynamic => parse_dynamic rest
      | some .invokeDynamic => parse_invoke_dynamic rest
      | some .module => parse_module rest
      | some .package => parse_package rest := rfl
  have hin : b ∈ constantTags →
      parse_constant (b :: rest) = .err (.parseError .eof) ∨
      ∃ r c, parse_constant (b :: rest) = .ok r c := by
    intro hm
    have hrec := record_decoders_okOrEof rest
    fin_cases hm <;>
      simp only [hstep, ConstantTag.from_u8] <;> norm_num <;>
      first
      | exact hrec.1
      | exact hrec.2.1
      | exact hrec.2.2.1
      | exact hrec.2.2.2.1
      | exact hrec.2.2.2.2.1
      | exact hrec.2.2.2.2.2.1
      | exact hrec.2.2.2.2.2.2.1
      | exact hrec.2.2.2.2.2.2.2.1
      | exact hrec.2.2.2.2.2.2.2.2.1
      | exact hrec.2.2.2.2.2.2.2.2.2.1
      | exact hrec.2.2.2.2.2.2.2.2.2.2.1
      | exact hrec.2.2.2.2.2.2.2.2.2.2.2.1
      | exact hrec.2.2.2.2.2.2.2.2.2.2.2.2.1
      | exact hrec.2.2.2.2.2.2.2.2.2.2.2.2.2.1
      | exact hrec.2.2.2.2.2.2.2.2.2.2.2.2.2.2.1
      | exact hrec.2.2.2.2.2.2.2.2.2.2.2.2.2.2.2.1
      | exact hrec.2.2.2.2.2.2.2.2.2.2.2.2.2.2.2.2
  refine ⟨⟨fun he => ?_, fun hno => ?_⟩, hin⟩
  · intro hm
    rcases hin hm with h | ⟨r, c, h⟩ <;> rw [he] at h <;> simp at h
  · rw [hstep, from_u8_eq_none_of_not_mem hno]

/-- Claim C6 witness: tag byte 99 is rejected with
`InvalidConstantTag 99`, and valid tag 7 with a truncated operand
fails with `EndOfInput`, not `InvalidConstantTag`. -/
theorem c6_constant_tag_dispatch_witness :
    parse_constant [99] = .err (.invalidConstantTag 99) ∧
    parse_constant [7] ≠ .err (.invalidConstantTag 7) := by
  constructor
  · exact (c6_constant_tag_dispatch 99 []).1.mpr (by decide)
  · intro h
    exact absurd ((c6_constant_tag_dispatch 7 []).1.mp h) (by simp [constantTags])

/-! ## Access flags (src/crates/rj_core/src/class/access_flags.rs) -/

/-- BitFlags: the shared u16 bitmask representation. -/
structure BitFlags where
  bits : Nat
deriving DecidableEq, Repr

/-- `BitFlags::from_bits`. -/
def BitFlags.from_bits (bits : Nat) : BitFlags := ⟨bits⟩

/-- `BitFlags::contains`: `self.bits & other.bits == other.bits`. -/
def BitFlags.contains (a b : BitFlags) : Bool := a.bits &&& b.bits == b.bits

/-- `BitFlags::union`. -/
def BitFlags.union (a b : BitFlags) : BitFlags := .from_bits (a.bits ||| b.bits)

/-- `BitFlags::intersection`. -/
def BitFlags.intersection (a b : BitFlags) : BitFlags := .from_bits (a.bits &&& b.bits)

/-- ClassAccessFlags (one expansion of the `define_flags!` macro). -/
structure ClassAccessFlags where
  flags : BitFlags
deriving DecidableEq, Repr

/-- `ClassAccessFlags::bits`. -/
def ClassAccessFlags.bits (a : ClassAccessFlags) : Nat := a.flags.bits

/-- `ClassAccessFlags::from_bits`. -/
def ClassAccessFlags.from_bits (bits : Nat) : ClassAccessFlags := ⟨.from_bits bits⟩

/-- `ClassAccessFlags::contains`. -/
def ClassAccessFlags.contains (a b : ClassAccessFlags) : Bool := a.flags.contains b.flags

/-- `ClassAccessFlags::union`. -/
def ClassAccessFlags.union (a b : ClassAccessFlags) : ClassAccessFlags :=
  .from_bits (a.flags.bits ||| b.flags.bits)

/-- `ClassAccessFlags::intersection`. -/
def ClassAccessFlags.intersection (a b : ClassAccessFlags) : ClassAccessFlags :=
  .from_bits (a.flags.bits &&& b.flags.bits)

/-- FieldAccessFlags (second expansion of `define_flags!`). -/
structure FieldAccessFlags where
  flags : BitFlags
deriving DecidableEq, Repr

/-- `FieldAccessFlags::bits`. -/
def FieldAccessFlags.bits (a : FieldAccessFlags) : Nat := a.flags.bits

/-- `FieldAccessFlags::from_bits`. -/
def FieldAccessFlags.from_bits (bits : Nat) : FieldAccessFlags := ⟨.from_bits bits⟩

/-- `FieldAccessFlags::contains`. -/
def FieldAccessFlags.contains (a b : FieldAccessFlags) : Bool := a.flags.contains b.flags

/-- `FieldAccessFlags::union`. -/
def FieldAccessFlags.union (a b : FieldAccessFlags) : FieldAccessFlags :=
  .from_bits (a.flags.bits ||| b.flags.bits)

/-- `FieldAccessFlags::intersection`. -/
def FieldAccessFlags.intersection (a b : FieldAccessFlags) : FieldAccessFlags :=
  .from_bits (a.flags.bits &&& b.flags.bits)

/-- MethodAccessFlags (third expansion of `define_flags!`). -/
structure MethodAccessFlags where
  flags : BitFlags
deriving DecidableEq, Repr

/-- `MethodAccessFlags::bits`. -/
def MethodAccessFlags.bits (a : MethodAccessFlags) : Nat := a.flags.bits

/-- `MethodAccessFlags::from_bits`. -/
def MethodAccessFlags.from_bits (bits : Nat) : MethodAccessFlags := ⟨.from_bits bits⟩

/-- `MethodAccessFlags::contains`. -/
def MethodAccessFlags.contains (a b : MethodAccessFlags) : Bool := a.flags.contains b.flags

/-- `MethodAccessFlags::union`. -/
def MethodAccessFlags.union (a b : MethodAccessFlags) : MethodAccessFlags :=
  .from_bits (a.flags.bits ||| b.flags.bits)

/-- `MethodAccessFlags::intersection`. -/
def MethodAccessFlags.intersection (a b : MethodAccessFlags) : MethodAccessFlags :=
  .from_bits (a.flags.bits &&& b.flags.bits)

theorem nat_lor_land_left (a b : Nat) : (a ||| b) &&& a = a := by
  apply Nat.eq_of_testBit_eq
  intro i
  simp only [Nat.testBit_land, Nat.testBit_lor]
  cases a.testBit i <;> cases b.testBit i <;> rfl

theorem nat_lor_land_right (a b : Nat) : (a ||| b) &&& b = b := by
  apply Nat.eq_of_testBit_eq
  intro i
  simp only [Nat.testBit_land, Nat.testBit_lor]
  cases a.testBit i <;> cases b.testBit i <;> rfl

theorem nat_land_absorb_left (a b : Nat) : a &&& (a &&& b) = a &&& b := by
  apply Nat.eq_of_testBit_eq
  intro i
  simp only [Nat.testBit_land]
  cases a.testBit i <;> cases b.testBit i <;> rfl

theorem nat_land_absorb_right (a b : Nat) : b &&& (a &&& b) = a &&& b := by
  apply Nat.eq_of_testBit_eq
  intro i
  simp only [Nat.testBit_land]
  cases a.testBit i <;> cases b.testBit i <;> rfl

theorem nat_land_self (a : Nat) : a &&& a = a := by
  apply Nat.eq_of_testBit_eq
  intro i
  simp only [Nat.testBit_land]
  cases a.testBit i <;> rfl

/-- Claim C10: for each of the three access-flag flavors, union is
commutative, the union contains both operands, both operands contain
the intersection, contains is reflexive, and `from_bits/bits` is an
exact round trip. -/
theorem c10_access_flag_algebra :
    (∀ a b : ClassAccessFlags, a.union b = b.union a ∧
      (a.union b).contains a = true ∧ (a.union b).contains b = true ∧
      a.contains (a.intersection b) = true ∧ b.contains (a.intersection b) = true ∧
      a.contains a = true) ∧
    (∀ x : Nat, (ClassAccessFlags.from_bits x).bits = x) ∧
    (∀ a b : FieldAccessFlags, a.union b = b.union a ∧
      (a.union b).contains a = true ∧ (a.union b).contains b = true ∧
      a.contains (a.intersection b) = true ∧ b.contains (a.intersection b) = true ∧
      a.contains a = true) ∧
    (∀ x : Nat, (FieldAccessFlags.from_bits x).bits = x) ∧
    (∀ a b : MethodAccessFlags, a.union b = b.union a ∧
      (a.union b).contains a = true ∧ (a.union b).contains b = true ∧
      a.contains (a.intersection b) = true ∧ b.contains (a.intersection b) = true ∧
      a.contains a = true) ∧
    (∀ x : Nat, (MethodAccessFlags.from_bits x).bits = x) := by
  refine ⟨fun a b => ?_, fun x => rfl, fun a b => ?_, fun x => rfl, fun a b => ?_,
    fun x => rfl⟩ <;>
  · refine ⟨?_, ?_, ?_, ?_, ?_, ?_⟩ <;>
      simp [ClassAccessFlags.union, ClassAccessFlags.contains,
        ClassAccessFlags.intersection, ClassAccessFlags.from_bits,
        FieldAccessFlags.union, FieldAccessFlags.contains,
        FieldAccessFlags.intersection, FieldAccessFlags.from_bits,
        MethodAccessFlags.union, MethodAccessFlags.contains,
        MethodAccessFlags.intersection, MethodAccessFlags.from_bits,
        BitFlags.contains, BitFlags.from_bits, Nat.lor_comm, nat_lor_land_left,
        nat_lor_land_right, nat_land_absorb_left, nat_land_absorb_right,
        nat_land_self]

/-! ## Descriptor grammars
(src/crates/rj_core/src/class/descriptors/field_descriptor.rs and
method_descriptor.rs) -/

/-- FieldType.  The Rust enum in field_descriptor.rs has no Void
variant, but method_descriptor.rs constructs `FieldType::Void` for
void return types (spec §3 lists Void as return-type-only), so the
embedding includes it. -/
inductive FieldType where
  | byte | char | double | float | int | long | short | boolean
  | object (name : List Nat)
  | array (inner : FieldType)
  | void
deriving DecidableEq, Repr

/-- `parse_base_type`: one byte, matched against the eight base-type
tag letters. -/
def parse_base_type : List Nat → PResult ClassParseError FieldType
  | [] => .err (.parseError .eof)
  | tag :: rest =>
    if tag = 0x42 then .ok rest .byte
    else if tag = 0x43 then .ok rest .char
    else if tag = 0x44 then .ok rest .double
    else if tag = 0x46 then .ok rest .float
    else if tag = 0x49 then .ok rest .int
    else if tag = 0x4a then .ok rest .long
    else if tag = 0x53 then .ok rest .short
    else if tag = 0x5a then .ok rest .boolean
    else .err .invalidFieldDescriptor

/-- `parse_object_type`: literal `L`, class name up to the next `;`. -/
def parse_object_type : List Nat → PResult ClassParseError FieldType
  | [] => .err (.parseError .eof)
  | tag :: rest =>
    if tag = 0x4c then
      pbind (liftC (take_until rest [0x3b])) fun rest class_name =>
        .ok rest (.object class_name)
    else .err .invalidFieldDescriptor

/-- `parse_field_type`:
`parse_base_type(input).or_else(|_| parse_object_type(input)).or_else(|_| parse_array_type(input))`.
`parse_array_type` (literal `[` then one recursive FieldType) is
inlined in the final alternative so that the recursion is structural
on the input list. -/
def parse_field_type : List Nat → PResult ClassParseError FieldType
  | [] => .err (.parseError .eof)
  | tag :: rest =>
    match parse_base_type (tag :: rest) with
    | .ok r v => .ok r v
    | _ =>
      match parse_object_type (tag :: rest) with
      | .ok r v => .ok r v
      | _ =>
        if tag = 0x5b then
          match parse_field_type rest with
          | .ok r v => .ok r (.array v)
          | .err e => .err e
          | .panic m => .panic m
        else .err .invalidFieldDescriptor

/-- MethodDescriptor. -/
structure MethodDescriptor where
  parameters : List FieldType
  return_type : FieldType
deriving DecidableEq, Repr

/-- `parse_return_type`: reads one byte; `V` is Void, otherwise a
FieldType is parsed from the input after that byte. -/
def parse_return_type (input : List Nat) : PResult ClassParseError FieldType :=
  pbind (liftC (be_u8 input)) fun rest tag =>
    if tag = 0x56 then .ok rest .void
    else pbind (parse_field_type rest) fun rest field_type => .ok rest field_type

/-- The `while let Ok(..) = parse_field_type(rest)` parameter loop of
`parse_method_descriptor`.  The fuel argument is instantiated with the
input length; every successful `parse_field_type` consumes at least
one byte, so the fuel never runs out before the loop's own exit
condition (a `parse_field_type` failure) fires. -/
def parameter_loop : Nat → List Nat → List FieldType → List Nat × List FieldType
  | 0, rest, acc => (rest, acc)
  | fuel + 1, rest, acc =>
    match parse_field_type rest with
    | .ok r v => parameter_loop fuel r (acc ++ [v])
    | _ => (rest, acc)

/-- `parse_method_descriptor`.  Note the structure of the source: the
first byte is consumed unchecked, then one `parse_field_type` is
required (with `?`), then the while-let loop collects further
parameters until the first failure, then the return type is parsed. -/
def parse_method_descriptor (input : List Nat) : PResult ClassParseError MethodDescriptor :=
  pbind (liftC (be_u8 input)) fun rest _ =>
  pbind (parse_field_type rest) fun rest first =>
  match parameter_loop rest.length rest [first] with
  | (rest, parameter_types) =>
    pbind (parse_return_type rest) fun rest return_type =>
    .ok rest ⟨parameter_types, return_type⟩

/-- Claim C3 evaluation: the descriptor string `"()V"` (bytes 0x28
0x29 0x56) is rejected with `InvalidFieldDescriptor`, because the
source requires at least one parameter FieldType before entering its
parameter loop; `"(I)V"` also fails, because the return-type reader
consumes the `)` as its probe byte and then cannot parse `V` as a
FieldType. -/
theorem c3_method_descriptor_rejects_nullary :
    parse_method_descriptor [0x28, 0x29, 0x56] = .err .invalidFieldDescriptor ∧
    parse_method_descriptor [0x28, 0x49, 0x29, 0x56] = .err .invalidFieldDescriptor := by
  constructor <;> rfl

/-! ## Instruction decoder (src/crates/rj_core/src/asm/instruction.rs) -/

/-- Instruction: the full opcode set.  Signed operands (branch
offsets, immediates) are `Int`; unsigned operands (pool indices,
slots, counts) are `Nat`.  The Rust variants `New` and `Return` are
`new` and `returnOp` here. -/
inductive Instruction where
  | aaload | aastore | aconstNull
  | aload (index : Nat)
  | aload0 | aload1 | aload2 | aload3
  | anewarray (index : Nat)
  | areturn | arraylength
  | astore (index : Nat)
  | astore0 | astore1 | astore2 | astore3
  | athrow | baload | bastore
  | bipush (byte : Int)
  | caload | castore
  | checkcast (index : Nat)
  | d2f | d2i | d2l | dadd | daload | dastore | dcmpg | dcmpl
  | dconst0 | dconst1 | ddiv
  | dload (index : Nat)
  | dload0 | dload1 | dload2 | dload3
  | dmul | dneg | drem | dreturn
  | dstore (index : Nat)
  | dstore0 | dstore1 | dstore2 | dstore3
  | dsub | dup | dupX1 | dupX2 | dup2 | dup2X1 | dup2X2
  | f2d | f2i | f2l | fadd | faload | fastore | fcmpg | fcmpl
  | fconst0 | fconst1 | fconst2 | fdiv
  | fload (index : Nat)
  | fload0 | fload1 | fload2 | fload3
  | fmul | fneg | frem | freturn
  | fstore (index : Nat)
  | fstore0 | fstore1 | fstore2 | fstore3
  | fsub
  | getfield (index : Nat)
  | getstatic (index : Nat)
  | goto (offset : Int)
  | gotoW (offset : Int)
  | i2b | i2c | i2d | i2f | i2l | i2s
  | iadd | iaload | iand | iastore
  | iconstM1 | iconst0 | iconst1 | iconst2 | iconst3 | iconst4 | iconst5
  | idiv
  | ifAcmpeq (offset : Int)
  | ifAcmpne (offset : Int)
  | ifIcmpeq (offset : Int)
  | ifIcmpne (offset : Int)
  | ifIcmplt (offset : Int)
  | ifIcmpge (offset : Int)
  | ifIcmpgt (offset : Int)
  | ifIcmple (offset : Int)
  | ifeq (offset : Int)
  | ifne (offset : Int)
  | iflt (offset : Int)
  | ifge (offset : Int)
  | ifgt (offset : Int)
  | ifle (offset : Int)
  | ifnonnull (offset : Int)
  | ifnull (offset : Int)
  | iinc (index : Nat) (byte : Int)
  | iload (index : Nat)
  | iload0 | iload1 | iload2 | iload3
  | imul | ineg
  | instanceof (index : Nat)
  | invokedynamic (index : Nat) (zero1 zero2 : Nat)
  | invokeinterface (index : Nat) (count : Nat) (z : Nat)
  | invokespecial (index : Nat)
  | invokestatic (index : Nat)
  | invokevirtual (index : Nat)
  | ior | irem | ireturn | ishl | ishr
  | istore (index : Nat)
  | istore0 | istore1 | istore2 | istore3
  | isub | iushr | ixor
  | jsr (offset : Int)
  | jsrW (offset : Int)
  | l2d | l2f | l2i | ladd | laload | land | lastore | lcmp
  | lconst0 | lconst1
  | ldc (index : Nat)
  | ldcW (index : Nat)
  | ldc2W (index : Nat)
  | ldiv
  | lload (index : Nat)
  | lload0 | lload1 | lload2 | lload3
  | lmul | lneg
  | lookupswitch (default : Int) (pairs : List (Int × Int))
  | lor | lrem | lreturn | lshl | lshr
  | lstore (index : Nat)
  | lstore0 | lstore1 | lstore2 | lstore3
  | lsub | lushr | lxor
  | monitorenter | monitorexit
  | multianewarray (index : Nat) (dimensions : Nat)
  | new (index : Nat)
  | newarray (atype : Nat)
  | nop | pop | pop2
  | putfield (index : Nat)
  | putstatic (index : Nat)
  | ret (index : Nat)
  | returnOp
  | saload | sastore
  | sipush (byte : Int)
  | swap
  | tableswitch (default low high : Int) (offsets : List Int)
  | wideIload (index : Nat)
  | wideFload (index : Nat)
  | wideAload (index : Nat)
  | wideLload (index : Nat)
  | wideDload (index : Nat)
  | wideIstore (index : Nat)
  | wideFstore (index : Nat)
  | wideAstore (index : Nat)
  | wideLstore (index : Nat)
  | wideDstore (index : Nat)
  | wideRet (index : Nat)
  | wideIinc (index : Nat) (byte : Int)

/-- True for the twelve short instruction forms that the `wide`
prefix (0xc4) reinterprets with widened operands. -/
def shortWideable : Instruction → Bool
  | .iload _ | .fload _ | .aload _ | .lload _ | .dload _
  | .istore _ | .fstore _ | .astore _ | .lstore _ | .dstore _
  | .ret _ | .iinc _ _ => true
  | _ => false

/-- The twelve wideable opcode bytes
{iload, fload, aload, lload, dload, istore, fstore, astore, lstore,
dstore, ret, iinc}. -/
def wideableOpcodes : List Nat :=
  [0x15, 0x17, 0x19, 0x16, 0x18, 0x36, 0x38, 0x3a, 0x37, 0x39, 0xa9, 0x84]

/-- The `0xc4` arm of `parse_instruction`: the Rust `match` on the
result of re-decoding the following opcode.  `probe` is the value of
`parse_instruction(input)`; a probe panic (from a nested
`unimplemented!`) propagates, as a Rust panic would. -/
def wide_dispatch (input : List Nat)
    (probe : PResult InstructionParseError Instruction) :
    PResult InstructionParseError Instruction :=
  match probe with
  | .ok _ (.iload _) =>
      pbind (liftI (be_u8 input)) fun input _ =>
      pbind (liftI (be_u16 input)) fun input index =>
      .ok input (.wideIload index)
  | .ok _ (.fload _) =>
      pbind (liftI (be_u8 input)) fun input _ =>
      pbind (liftI (be_u16 input)) fun input index =>
      .ok input (.wideFload index)
  | .ok _ (.aload _) =>
      pbind (liftI (be_u8 input)) fun input _ =>
      pbind (liftI (be_u16 input)) fun input index =>
      .ok input (.wideAload index)
  | .ok _ (.lload _) =>
      pbind (liftI (be_u8 input)) fun input _ =>
      pbind (liftI (be_u16 input)) fun input index =>
      .ok input (.wideLload index)
  | .ok _ (.dload _) =>
      pbind (liftI (be_u8 input)) fun input _ =>
      pbind (liftI (be_u16 input)) fun input index =>
      .ok input (.wideDload index)
  | .ok _ (.istore _) =>
      pbind (liftI (be_u8 input)) fun input _ =>
      pbind (liftI (be_u16 input)) fun input index =>
      .ok input (.wideIstore index)
  | .ok _ (.fstore _) =>
      pbind (liftI (be_u8 input)) fun input _ =>
      pbind (liftI (be_u16 input)) fun input index =>
      .ok input (.wideFstore index)
  | .ok _ (.astore _) =>
      pbind (liftI (be_u8 input)) fun input _ =>
      pbind (liftI (be_u16 input)) fun input index =>
      .ok input (.wideAstore index)
  | .ok _ (.lstore _) =>
      pbind (liftI (be_u8 input)) fun input _ =>
      pbind (liftI (be_u16 input)) fun input index =>
      .ok input (.wideLstore index)
  | .ok _ (.dstore _) =>
      pbind (liftI (be_u8 input)) fun input _ =>
      pbind (liftI (be_u16 input)) fun input index =>
      .ok input (.wideDstore index)
  | .ok _ (.ret _) =>
      pbind (liftI (be_u8 input)) fun input _ =>
      pbind (liftI (be_u16 input)) fun input index =>
      .ok input (.wideRet index)
  | .ok _ (.iinc _ _) =>
      pbind (liftI (be_u8 input)) fun input _ =>
      pbind (liftI (be_u16 input)) fun input index =>
      pbind (liftI (be_i16 input)) fun input byte =>
      .ok input (.wideIinc index byte)
  | .panic m => .panic m
  | _ =>
      pbind (liftI (be_u8 input)) fun _ opcode => .err (.unknownInstruction opcode)

/-- Opcodes 0x00-0x1f of the `parse_instruction` dispatch
(bank 0 of the flat Rust `match`, grouped to keep each Lean matcher
small; semantics are unchanged). -/
def instr_bank0 (opcode : Nat) (input : List Nat) :
    PResult InstructionParseError Instruction :=
  match opcode with
    | 0x00 => .ok input .nop
    | 0x01 => .ok input .aconstNull
    | 0x02 => .ok input .iconstM1
    | 0x03 => .ok input .iconst0
    | 0x04 => .ok input .iconst1
    | 0x05 => .ok input .iconst2
    | 0x06 => .ok input .iconst3
    | 0x07 => .ok input .iconst4
    | 0x08 => .ok input .iconst5
    | 0x09 => .ok input .lconst0
    | 0x0a => .ok input .lconst1
    | 0x0b => .ok input .fconst0
    | 0x0c => .ok input .fconst1
    | 0x0d => .ok input .fconst2
    | 0x0e => .ok input .dconst0
    | 0x0f => .ok input .dconst1
    | 0x10 => pbind (liftI (be_i8 input)) fun input byte => .ok input (.bipush byte)
    | 0x11 => pbind (liftI (be_i16 input)) fun input byte => .ok input (.sipush byte)
    | 0x12 => pbind (liftI (be_u8 input)) fun input index => .ok input (.ldc index)
    | 0x13 => pbind (liftI (be_u16 input)) fun input index => .ok input (.ldcW index)
    | 0x14 => pbind (liftI (be_u16 input)) fun input index => .ok input (.ldc2W index)
    | 0x15 => pbind (liftI (be_u8 input)) fun input index => .ok input (.iload index)
    | 0x16 => pbind (liftI (be_u8 input)) fun input index => .ok input (.lload index)
    | 0x17 => pbind (liftI (be_u8 input)) fun input index => .ok input (.fload index)
    | 0x18 => pbind (liftI (be_u8 input)) fun input index => .ok input (.dload index)
    | 0x19 => pbind (liftI (be_u8 input)) fun input index => .ok input (.aload index)
    | 0x1a => .ok input .iload0
    | 0x1b => .ok input .iload1
    | 0x1c => .ok input .iload2
    | 0x1d => .ok input .iload3
    | 0x1e => .ok input .lload0
    | 0x1f => .ok input .lload1
    | _ => .err (.unknownInstruction opcode)

/-- Opcodes 0x20-0x3f of the `parse_instruction` dispatch
(bank 1 of the flat Rust `match`, grouped to keep each Lean matcher
small; semantics are unchanged). -/
def instr_bank1 (opcode : Nat) (input : List Nat) :
    PResult InstructionParseError Instruction :=
  match opcode with
    | 0x20 => .ok input .lload2
    | 0x21 => .ok input .lload3
    | 0x22 => .ok input .fload0
    | 0x23 => .ok input .fload1
    | 0x24 => .ok input .fload2
    | 0x25 => .ok input .fload3
    | 0x26 => .ok input .dload0
    | 0x27 => .ok input .dload1
    | 0x28 => .ok input .dload2
    | 0x29 => .ok input .dload3
    | 0x2a => .ok input .aload0
    | 0x2b => .ok input .aload1
    | 0x2c => .ok input .aload2
    | 0x2d => .ok input .aload3
    | 0x2e => .ok input .iaload
    | 0x2f => .ok input .laload
    | 0x30 => .ok input .faload
    | 0x31 => .ok input .daload
    | 0x32 => .ok input .aaload
    | 0x33 => .ok input .baload
    | 0x34 => .ok input .caload
    | 0x35 => .ok input .saload
    | 0x36 => pbind (liftI (be_u8 input)) fun input index => .ok input (.istore index)
    | 0x37 => pbind (liftI (be_u8 input)) fun input index => .ok input (.lstore index)
    | 0x38 => pbind (liftI (be_u8 input)) fun input index => .ok input (.fstore index)
    | 0x39 => pbind (liftI (be_u8 input)) fun input index => .ok input (.dstore index)
    | 0x3a => pbind (liftI (be_u8 input)) fun input index => .ok input (.astore index)
    | 0x3b => .ok input .istore0
    | 0x3c => .ok input .istore1
    | 0x3d => .ok input .istore2
    | 0x3e => .ok input .istore3
    | 0x3f => .ok input .lstore0
    | _ => .err (.unknownInstruction opcode)

/-- Opcodes 0x40-0x5f of the `parse_instruction` dispatch
(bank 2 of the flat Rust `match`, grouped to keep each Lean matcher
small; semantics are unchanged). -/
def instr_bank2 (opcode : Nat) (input : List Nat) :
    PResult InstructionParseError Instruction :=
  match opcode with
    | 0x40 => .ok input .lstore1
    | 0x41 => .ok input .lstore2
    | 0x42 => .ok input .lstore3
    | 0x43 => .ok input .fstore0
    | 0x44 => .ok input .fstore1
    | 0x45 => .ok input .fstore2
    | 0x46 => .ok input .fstore3
    | 0x47 => .ok input .dstore0
    | 0x48 => .ok input .dstore1
    | 0x49 => .ok input .dstore2
    | 0x4a => .ok input .dstore3
    | 0x4b => .ok input .astore0
    | 0x4c => .ok input .astore1
    | 0x4d => .ok input .astore2
    | 0x4e => .ok input .astore3
    | 0x4f => .ok input .iastore
    | 0x50 => .ok input .lastore
    | 0x51 => .ok input .fastore
    | 0x52 => .ok input .dastore
    | 0x53 => .ok input .aastore
    | 0x54 => .ok input .bastore
    | 0x55 => .ok input .castore
    | 0x56 => .ok input .sastore
    | 0x57 => .ok input .pop
    | 0x58 => .ok input .pop2
    | 0x59 => .ok input .dup
    | 0x5a => .ok input .dupX1
    | 0x5b => .ok input .dupX2
    | 0x5c => .ok input .dup2
    | 0x5d => .ok input .dup2X1
    | 0x5e => .ok input .dup2X2
    | 0x5f => .ok input .swap
    | _ => .err (.unknownInstruction opcode)

/-- Opcodes 0x60-0x7f of the `parse_instruction` dispatch
(bank 3 of the flat Rust `match`, grouped to keep each Lean matcher
small; semantics are unchanged). -/
def instr_bank3 (opcode : Nat) (input : List Nat) :
    PResult InstructionParseError Instruction :=
  match opcode with
    | 0x60 => .ok input .iadd
    | 0x61 => .ok input .ladd
    | 0x62 => .ok input .fadd
    | 0x63 => .ok input .dadd
    | 0x64 => .ok input .isub
    | 0x65 => .ok input .lsub
    | 0x66 => .ok input .fsub
    | 0x67 => .ok input .dsub
    | 0x68 => .ok input .imul
    | 0x69 => .ok input .lmul
    | 0x6a => .ok input .fmul
    | 0x6b => .ok input .dmul
    | 0x6c => .ok input .idiv
    | 0x6d => .ok input .ldiv
    | 0x6e => .ok input .fdiv
    | 0x6f => .ok input .ddiv
    | 0x70 => .ok input .irem
    | 0x71 => .ok input .lrem
    | 0x72 => .ok input .frem
    | 0x73 => .ok input .drem
    | 0x74 => .ok input .ineg
    | 0x75 => .ok input .lneg
    | 0x76 => .ok input .fneg
    | 0x77 => .ok input .dneg
    | 0x78 => .ok input .ishl
    | 0x79 => .ok input .lshl
    | 0x7a => .ok input .ishr
    | 0x7b => .ok input .lshr
    | 0x7c => .ok input .iushr
    | 0x7d => .ok input .lushr
    | 0x7e => .ok input .iand
    | 0x7f => .ok input .land
    | _ => .err (.unknownInstruction opcode)

/-- Opcodes 0x80-0x9f of the `parse_instruction` dispatch
(bank 4 of the flat Rust `match`, grouped to keep each Lean matcher
small; semantics are unchanged). -/
def instr_bank4 (opcode : Nat) (input : List Nat) :
    PResult InstructionParseError Instruction :=
  match opcode with
    | 0x80 => .ok input .ior
    | 0x81 => .ok input .lor
    | 0x82 => .ok input .ixor
    | 0x83 => .ok input .lxor
    | 0x84 =>
        pbind (liftI (be_u8 input)) fun input index =>
        pbind (liftI (be_i8 input)) fun input byte =>
        .ok input (.iinc index byte)
    | 0x85 => .ok input .i2l
    | 0x86 => .ok input .i2f
    | 0x87 => .ok input .i2d
    | 0x88 => .ok input .l2i
    | 0x89 => .ok input .l2f
    | 0x8a => .ok input .l2d
    | 0x8b => .ok input .f2i
    | 0x8c => .ok input .f2l
    | 0x8d => .ok input .f2d
    | 0x8e => .ok input .d2i
    | 0x8f => .ok input .d2l
    | 0x90 => .ok input .d2f
    | 0x91 => .ok input .i2b
    | 0x92 => .ok input .i2c
    | 0x93 => .ok input .i2s
    | 0x94 => .ok input .lcmp
    | 0x95 => .ok input .fcmpl
    | 0x96 => .ok input .fcmpg
    | 0x97 => .ok input .dcmpl
    | 0x98 => .ok input .dcmpg
    | 0x99 => pbind (liftI (be_i16 input)) fun input offset => .ok input (.ifeq offset)
    | 0x9a => pbind (liftI (be_i16 input)) fun input offset => .ok input (.ifne offset)
    | 0x9b => pbind (liftI (be_i16 input)) fun input offset => .ok input (.iflt offset)
    | 0x9c => pbind (liftI (be_i16 input)) fun input offset => .ok input (.ifge offset)
    | 0x9d => pbind (liftI (be_i16 input)) fun input offset => .ok input (.ifgt offset)
    | 0x9e => pbind (liftI (be_i16 input)) fun input offset => .ok input (.ifle offset)
    | 0x9f => pbind (liftI (be_i16 input)) fun input offset => .ok input (.ifIcmpeq offset)
    | _ => .err (.unknownInstruction opcode)

/-- Opcodes 0xa0-0xbf of the `parse_instruction` dispatch
(bank 5 of the flat Rust `match`, grouped to keep each Lean matcher
small; semantics are unchanged). -/
def instr_bank5 (opcode : Nat) (input : List Nat) :
    PResult InstructionParseError Instruction :=
  match opcode with
    | 0xa0 => pbind (liftI (be_i16 input)) fun input offset => .ok input (.ifIcmpne offset)
    | 0xa1 => pbind (liftI (be_i16 input)) fun input offset => .ok input (.ifIcmplt offset)
    | 0xa2 => pbind (liftI (be_i16 input)) fun input offset => .ok input (.ifIcmpge offset)
    | 0xa3 => pbind (liftI (be_i16 input)) fun input offset => .ok input (.ifIcmpgt offset)
    | 0xa4 => pbind (liftI (be_i16 input)) fun input offset => .ok input (.ifIcmple offset)
    | 0xa5 => pbind (liftI (be_i16 input)) fun input offset => .ok input (.ifAcmpeq offset)
    | 0xa6 => pbind (liftI (be_i16 input)) fun input offset => .ok input (.ifAcmpne offset)
    | 0xa7 => pbind (liftI (be_i16 input)) fun input offset => .ok input (.goto offset)
    | 0xa8 => pbind (liftI (be_i16 input)) fun input offset => .ok input (.jsr offset)
    | 0xa9 => pbind (liftI (be_u8 input)) fun input index => .ok input (.ret index)
    | 0xaa => .panic "tableswitch"
    | 0xab => .panic "lookupswitch"
    | 0xac => .ok input .ireturn
    | 0xad => .ok input .lreturn
    | 0xae => .ok input .freturn
    | 0xaf => .ok input .dreturn
    | 0xb0 => .ok input .areturn
    | 0xb1 => .ok input .returnOp
    | 0xb2 => pbind (liftI (be_u16 input)) fun input index => .ok input (.getstatic index)
    | 0xb3 => pbind (liftI (be_u16 input)) fun input index => .ok input (.putstatic index)
    | 0xb4 => pbind (liftI (be_u16 input)) fun input index => .ok input (.getfield index)
    | 0xb5 => pbind (liftI (be_u16 input)) fun input index => .ok input (.putfield index)
    | 0xb6 => pbind (liftI (be_u16 input)) fun input index => .ok input (.invokevirtual index)
    | 0xb7 => pbind (liftI (be_u16 input)) fun input index => .ok input (.invokespecial index)
    | 0xb8 => pbind (liftI (be_u16 input)) fun input index => .ok input (.invokestatic index)
    | 0xb9 =>
        pbind (liftI (be_u16 input)) fun input index =>
        pbind (liftI (be_u8 input)) fun input count =>
        pbind (liftI (be_u8 input)) fun input _ =>
        .ok input (.invokeinterface index count 0)
    | 0xba =>
        pbind (liftI (be_u16 input)) fun input index =>
        pbind (liftI (be_u8 input)) fun input _ =>
        pbind (liftI (be_u8 input)) fun input _ =>
        .ok input (.invokedynamic index 0 0)
    | 0xbb => pbind (liftI (be_u16 input)) fun input index => .ok input (.new index)
    | 0xbc => pbind (liftI (be_u8 input)) fun input atype => .ok input (.newarray atype)
    | 0xbd => pbind (liftI (be_u16 input)) fun input index => .ok input (.anewarray index)
    | 0xbe => .ok input .arraylength
    | 0xbf => .ok input .athrow
    | _ => .err (.unknownInstruction opcode)

/-- Opcodes 0xc0-0xdf of the `parse_instruction` dispatch
(bank 6 of the flat Rust `match`, grouped to keep each Lean matcher
small; semantics are unchanged). -/
def instr_bank6 (opcode : Nat) (input : List Nat) :
    PResult InstructionParseError Instruction :=
  match opcode with
    | 0xc0 => pbind (liftI (be_u16 input)) fun input index => .ok input (.checkcast index)
    | 0xc1 => pbind (liftI (be_u16 input)) fun input index => .ok input (.instanceof index)
    | 0xc2 => .ok input .monitorenter
    | 0xc3 => .ok input .monitorexit
    | 0xc5 =>
        pbind (liftI (be_u16 input)) fun input index =>
        pbind (liftI (be_u8 input)) fun input dimensions =>
        .ok input (.multianewarray index dimensions)
    | 0xc6 => pbind (liftI (be_i16 input)) fun input offset => .ok input (.ifnull offset)
    | 0xc7 => pbind (liftI (be_i16 input)) fun input offset => .ok input (.ifnonnull offset)
    | 0xc8 => pbind (liftI (be_i32 input)) fun input offset => .ok input (.gotoW offset)
    | 0xc9 => pbind (liftI (be_i32 input)) fun input offset => .ok input (.jsrW offset)
    | _ => .err (.unknownInstruction opcode)

/-- The non-wide, non-recursive part of the `parse_instruction` opcode
dispatch: every arm of the flat Rust `match` except 0xc4, routed
through the seven banks by `opcode / 32`; undefined opcodes fall to
`UnknownInstruction`. -/
def opcode_dispatch (opcode : Nat) (input : List Nat) :
    PResult InstructionParseError Instruction :=
  match opcode / 32 with
  | 0 => instr_bank0 opcode input
  | 1 => instr_bank1 opcode input
  | 2 => instr_bank2 opcode input
  | 3 => instr_bank3 opcode input
  | 4 => instr_bank4 opcode input
  | 5 => instr_bank5 opcode input
  | 6 => instr_bank6 opcode input
  | _ => .err (.unknownInstruction opcode)

/-- `parse_instruction`: one opcode byte, then the fixed dispatch.
Opcode 0xc4 (`wide`) re-decodes the following opcode via
`wide_dispatch`; all other opcodes go through `opcode_dispatch`.
Opcodes 0xaa (`tableswitch`) and 0xab (`lookupswitch`) are
`unimplemented!` in the source and therefore panic (inside bank 5). -/
def parse_instruction : List Nat → PResult InstructionParseError Instruction
  | [] => .err (.parseError .eof)
  | opcode :: input =>
    match opcode with
    | 0xc4 => wide_dispatch input (parse_instruction input)
    | _ => opcode_dispatch opcode input

/-! ## Panic and probe classification for the instruction decoder -/

/-- A decoding outcome that is not a panic. -/
def NoPanic {ε α : Type} (x : PResult ε α) : Prop := ∀ m, x ≠ .panic m

theorem noPanic_ok {ε α : Type} (r : List Nat) (v : α) :
    NoPanic (.ok r v : PResult ε α) := fun _ h => PResult.noConfusion h

theorem noPanic_err {ε α : Type} (e : ε) :
    NoPanic (.err e : PResult ε α) := fun _ h => PResult.noConfusion h

theorem noPanic_pbind {ε α β : Type} {x : PResult ε α}
    {f : List Nat → α → PResult ε β} (hx : NoPanic x)
    (hf : ∀ r v, NoPanic (f r v)) : NoPanic (pbind x f) := by
  cases x with
  | ok r v => exact hf r v
  | err e => exact noPanic_err e
  | panic m => exact absurd rfl (hx m)

theorem noPanic_liftC {α : Type} {x : PResult ParseError α} (hx : NoPanic x) :
    NoPanic (liftC x) := by
  cases x with
  | ok r v => exact noPanic_ok r v
  | err e => exact noPanic_err _
  | panic m => exact absurd rfl (hx m)

theorem noPanic_liftI {α : Type} {x : PResult ParseError α} (hx : NoPanic x) :
    NoPanic (liftI x) := by
  cases x with
  | ok r v => exact noPanic_ok r v
  | err e => exact noPanic_err _
  | panic m => exact absurd rfl (hx m)

theorem noPanic_be_u8 (input : List Nat) : NoPanic (be_u8 input) := by
  cases input <;> first | exact noPanic_err _ | exact noPanic_ok _ _

theorem noPanic_be_u16 (input : List Nat) : NoPanic (be_u16 input) := by
  rcases input with _ | ⟨a, _ | ⟨b, r⟩⟩ <;> first | exact noPanic_err _ | exact noPanic_ok _ _

theorem noPanic_be_u32 (input : List Nat) : NoPanic (be_u32 input) := by
  rcases input with _ | ⟨a, _ | ⟨b, _ | ⟨c, _ | ⟨d, r⟩⟩⟩⟩ <;>
    first | exact noPanic_err _ | exact noPanic_ok _ _

theorem noPanic_be_i8 (input : List Nat) : NoPanic (be_i8 input) := by
  cases input <;> first | exact noPanic_err _ | exact noPanic_ok _ _

theorem noPanic_be_i16 (input : List Nat) : NoPanic (be_i16 input) := by
  rcases input with _ | ⟨a, _ | ⟨b, r⟩⟩ <;> first | exact noPanic_err _ | exact noPanic_ok _ _

theorem noPanic_be_i32 (input : List Nat) : NoPanic (be_i32 input) := by
  rcases input with _ | ⟨a, _ | ⟨b, _ | ⟨c, _ | ⟨d, r⟩⟩⟩⟩ <;>
    first | exact noPanic_err _ | exact noPanic_ok _ _

theorem noPanic_be_i64 (input : List Nat) : NoPanic (be_i64 input) := by
  rcases input with _ | ⟨a, _ | ⟨b, _ | ⟨c, _ | ⟨d, _ | ⟨e, _ | ⟨f, _ | ⟨g, _ | ⟨h, r⟩⟩⟩⟩⟩⟩⟩⟩ <;>
    first | exact noPanic_err _ | exact noPanic_ok _ _

theorem noPanic_be_f32 (input : List Nat) : NoPanic (be_f32 input) := by
  rcases input with _ | ⟨a, _ | ⟨b, _ | ⟨c, _ | ⟨d, r⟩⟩⟩⟩ <;>
    first | exact noPanic_err _ | exact noPanic_ok _ _

theorem noPanic_be_f64 (input : List Nat) : NoPanic (be_f64 input) := by
  rcases input with _ | ⟨a, _ | ⟨b, _ | ⟨c, _ | ⟨d, _ | ⟨e, _ | ⟨f, _ | ⟨g, _ | ⟨h, r⟩⟩⟩⟩⟩⟩⟩⟩ <;>
    first | exact noPanic_err _ | exact noPanic_ok _ _

theorem noPanic_bytes (input : List Nat) (n : Nat) : NoPanic (bytes input n) := by
  by_cases h : input.length < n <;> simp only [bytes, h, if_true, if_false] <;>
    first | exact noPanic_err _ | exact noPanic_ok _ _

theorem noPanic_take_until (input pat : List Nat) : NoPanic (take_until input pat) := by
  unfold take_until
  cases find_sub input pat <;> first | exact noPanic_err _ | exact noPanic_ok _ _

theorem noPanicI_u8 (input : List Nat) : NoPanic (liftI (be_u8 input)) :=
  noPanic_liftI (noPanic_be_u8 input)

theorem noPanicI_u16 (input : List Nat) : NoPanic (liftI (be_u16 input)) :=
  noPanic_liftI (noPanic_be_u16 input)

theorem noPanicI_i8 (input : List Nat) : NoPanic (liftI (be_i8 input)) :=
  noPanic_liftI (noPanic_be_i8 input)

theorem noPanicI_i16 (input : List Nat) : NoPanic (liftI (be_i16 input)) :=
  noPanic_liftI (noPanic_be_i16 input)

theorem noPanicI_i32 (input : List Nat) : NoPanic (liftI (be_i32 input)) :=
  noPanic_liftI (noPanic_be_i32 input)

/-- Classification of a wide-prefix probe result: not a panic, and any
success carries an instruction outside the twelve short wideable
forms. -/
def ProbeFine (x : PResult InstructionParseError Instruction) : Prop :=
  match x with
  | .ok _ i => shortWideable i = false
  | .err _ => True
  | .panic _ => False

theorem probeFine_pbind {α : Type} (x : PResult InstructionParseError α)
    (k : List Nat → α → PResult InstructionParseError Instruction)
    (hx : NoPanic x) (hk : ∀ r v, ProbeFine (k r v)) : ProbeFine (pbind x k) := by
  cases x with
  | ok r v => exact hk r v
  | err e => exact trivial
  | panic m => exact absurd rfl (hx m)

/-- No-panic tactic target for one bank arm set: every arm except the
two `unimplemented!` ones (handled by hypotheses) is a success, an
error, or a chain of primitive reads. -/
theorem instr_bank0_no_panic (b : Nat) (rest : List Nat) : NoPanic (instr_bank0 b rest) := by
  unfold instr_bank0
  split <;>
    ((repeat' first
      | exact noPanic_ok _ _
      | exact noPanic_err _
      | refine noPanic_pbind ?_ fun r v => ?_
      | exact noPanicI_u8 _
      | exact noPanicI_u16 _
      | exact noPanicI_i8 _
      | exact noPanicI_i16 _
      | exact noPanicI_i32 _) <;> done)

theorem instr_bank1_no_panic (b : Nat) (rest : List Nat) : NoPanic (instr_bank1 b rest) := by
  unfold instr_bank1
  split <;>
    ((repeat' first
      | exact noPanic_ok _ _
      | exact noPanic_err _
      | refine noPanic_pbind ?_ fun r v => ?_
      | exact noPanicI_u8 _
      | exact noPanicI_u16 _
      | exact noPanicI_i8 _
      | exact noPanicI_i16 _
      | exact noPanicI_i32 _) <;> done)

theorem instr_bank2_no_panic (b : Nat) (rest : List Nat) : NoPanic (instr_bank2 b rest) := by
  unfold instr_bank2
  split <;>
    ((repeat' first
      | exact noPanic_ok _ _
      | exact noPanic_err _
      | refine noPanic_pbind ?_ fun r v => ?_
      | exact noPanicI_u8 _
      | exact noPanicI_u16 _
      | exact noPanicI_i8 _
      | exact noPanicI_i16 _
      | exact noPanicI_i32 _) <;> done)

theorem instr_bank3_no_panic (b : Nat) (rest : List Nat) : NoPanic (instr_bank3 b rest) := by
  unfold instr_bank3
  split <;>
    ((repeat' first
      | exact noPanic_ok _ _
      | exact noPanic_err _
      | refine noPanic_pbind ?_ fun r v => ?_
      | exact noPanicI_u8 _
      | exact noPanicI_u16 _
      | exact noPanicI_i8 _
      | exact noPanicI_i16 _
      | exact noPanicI_i32 _) <;> done)

theorem instr_bank4_no_panic (b : Nat) (rest : List Nat) : NoPanic (instr_bank4 b rest) := by
  unfold instr_bank4
  split <;>
    ((repeat' first
      | exact noPanic_ok _ _
      | exact noPanic_err _
      | refine noPanic_pbind ?_ fun r v => ?_
      | exact noPanicI_u8 _
      | exact noPanicI_u16 _
      | exact noPanicI_i8 _
      | exact noPanicI_i16 _
      | exact noPanicI_i32 _) <;> done)

theorem instr_bank5_no_panic (b : Nat) (rest : List Nat)
    (ha : b ≠ 0xaa) (hb : b ≠ 0xab) : NoPanic (instr_bank5 b rest) := by
  unfold instr_bank5
  split <;>
    first
    | ((repeat' first
        | exact noPanic_ok _ _
        | exact noPanic_err _
        | refine noPanic_pbind ?_ fun r v => ?_
        | exact noPanicI_u8 _
        | exact noPanicI_u16 _
        | exact noPanicI_i8 _
        | exact noPanicI_i16 _
        | exact noPanicI_i32 _) <;> done)
    | simp_all

theorem instr_bank6_no_panic (b : Nat) (rest : List Nat) : NoPanic (instr_bank6 b rest) := by
  unfold instr_bank6
  split <;>
    ((repeat' first
      | exact noPanic_ok _ _
      | exact noPanic_err _
      | refine noPanic_pbind ?_ fun r v => ?_
      | exact noPanicI_u8 _
      | exact noPanicI_u16 _
      | exact noPanicI_i8 _
      | exact noPanicI_i16 _
      | exact noPanicI_i32 _) <;> done)

/-- The non-wide dispatch never panics except on the two
`unimplemented!` opcodes. -/
theorem opcode_dispatch_no_panic (b : Nat) (rest : List Nat)
    (ha : b ≠ 0xaa) (hb : b ≠ 0xab) : NoPanic (opcode_dispatch b rest) := by
  unfold opcode_dispatch
  split <;>
    first
    | exact instr_bank0_no_panic b rest
    | exact instr_bank1_no_panic b rest
    | exact instr_bank2_no_panic b rest
    | exact instr_bank3_no_panic b rest
    | exact instr_bank4_no_panic b rest
    | exact instr_bank5_no_panic b rest ha hb
    | exact instr_bank6_no_panic b rest
    | exact noPanic_err _

/-- Decoding any single instruction whose opcode is not 0xaa, 0xab or
0xc4 never panics. -/
theorem instr_no_panic (b : Nat) (rest : List Nat)
    (ha : b ≠ 0xaa) (hb : b ≠ 0xab) (hc : b ≠ 0xc4) :
    NoPanic (parse_instruction (b :: rest)) := by
  unfold parse_instruction
  split
  · simp_all
  · exact opcode_dispatch_no_panic b rest ha hb

theorem instr_bank0_probe_fine (b : Nat) (rest : List Nat)
    (hw : b ∉ wideableOpcodes) : ProbeFine (instr_bank0 b rest) := by
  simp only [wideableOpcodes, List.mem_cons, List.not_mem_nil, or_false, not_or] at hw
  obtain ⟨w1, w2, w3, w4, w5, w6, w7, w8, w9, w10, w11, w12⟩ := hw
  unfold instr_bank0
  split <;>
    first
    | ((repeat' first
        | exact rfl
        | trivial
        | refine probeFine_pbind _ _ ?_ fun r v => ?_
        | exact noPanicI_u8 _
        | exact noPanicI_u16 _
        | exact noPanicI_i8 _
        | exact noPanicI_i16 _
        | exact noPanicI_i32 _) <;> done)
    | simp_all

theorem instr_bank1_probe_fine (b : Nat) (rest : List Nat)
    (hw : b ∉ wideableOpcodes) : ProbeFine (instr_bank1 b rest) := by
  simp only [wideableOpcodes, List.mem_cons, List.not_mem_nil, or_false, not_or] at hw
  obtain ⟨w1, w2, w3, w4, w5, w6, w7, w8, w9, w10, w11, w12⟩ := hw
  unfold instr_bank1
  split <;>
    first
    | ((repeat' first
        | exact rfl
        | trivial
        | refine probeFine_pbind _ _ ?_ fun r v => ?_
        | exact noPanicI_u8 _
        | exact noPanicI_u16 _
        | exact noPanicI_i8 _
        | exact noPanicI_i16 _
        | exact noPanicI_i32 _) <;> done)
    | simp_all

theorem instr_bank2_probe_fine (b : Nat) (rest : List Nat) :
    ProbeFine (instr_bank2 b rest) := by
  unfold instr_bank2
  split <;>
    ((repeat' first
      | exact rfl
      | trivial
      | refine probeFine_pbind _ _ ?_ fun r v => ?_
      | exact noPanicI_u8 _
      | exact noPanicI_u16 _
      | exact noPanicI_i8 _
      | exact noPanicI_i16 _
      | exact noPanicI_i32 _) <;> done)

theorem instr_bank3_probe_fine (b : Nat) (rest : List Nat) :
    ProbeFine (instr_bank3 b rest) := by
  unfold instr_bank3
  split <;>
    ((repeat' first
      | exact rfl
      | trivial
      | refine probeFine_pbind _ _ ?_ fun r v => ?_
      | exact noPanicI_u8 _
      | exact noPanicI_u16 _
      | exact noPanicI_i8 _
      | exact noPanicI_i16 _
      | exact noPanicI_i32 _) <;> done)

theorem instr_bank4_probe_fine (b : Nat) (rest : List Nat)
    (hw : b ∉ wideableOpcodes) : ProbeFine (instr_bank4 b rest) := by
  simp only [wideableOpcodes, List.mem_cons, List.not_mem_nil, or_false, not_or] at hw
  obtain ⟨w1, w2, w3, w4, w5, w6, w7, w8, w9, w10, w11, w12⟩ := hw
  unfold instr_bank4
  split <;>
    first
    | ((repeat' first
        | exact rfl
        | trivial
        | refine probeFine_pbind _ _ ?_ fun r v => ?_
        | exact noPanicI_u8 _
        | exact noPanicI_u16 _
        | exact noPanicI_i8 _
        | exact noPanicI_i16 _
        | exact noPanicI_i32 _) <;> done)
    | simp_all

theorem instr_bank5_probe_fine (b : Nat) (rest : List Nat)
    (ha : b ≠ 0xaa) (hb : b ≠ 0xab) (hw : b ∉ wideableOpcodes) :
    ProbeFine (instr_bank5 b rest) := by
  simp only [wideableOpcodes, List.mem_cons, List.not_mem_nil, or_false, not_or] at hw
  obtain ⟨w1, w2, w3, w4, w5, w6, w7, w8, w9, w10, w11, w12⟩ := hw
  unfold instr_bank5
  split <;>
    first
    | ((repeat' first
        | exact rfl
        | trivial
        | refine probeFine_pbind _ _ ?_ fun r v => ?_
        | exact noPanicI_u8 _
        | exact noPanicI_u16 _
        | exact noPanicI_i8 _
        | exact noPanicI_i16 _
        | exact noPanicI_i32 _) <;> done)
    | simp_all

theorem instr_bank6_probe_fine (b : Nat) (rest : List Nat) :
    ProbeFine (instr_bank6 b rest) := by
  unfold instr_bank6
  split <;>
    ((repeat' first
      | exact rfl
      | trivial
      | refine probeFine_pbind _ _ ?_ fun r v => ?_
      | exact noPanicI_u8 _
      | exact noPanicI_u16 _
      | exact noPanicI_i8 _
      | exact noPanicI_i16 _
      | exact noPanicI_i32 _) <;> done)

/-- A probe whose opcode is outside the wideable set and outside
{0xaa, 0xab, 0xc4} yields a fine result: no panic, and no short
wideable instruction. -/
theorem probe_spec (b : Nat) (rest : List Nat)
    (ha : b ≠ 0xaa) (hb : b ≠ 0xab) (hc : b ≠ 0xc4)
    (hw : b ∉ wideableOpcodes) :
    ProbeFine (parse_instruction (b :: rest)) := by
  unfold parse_instruction
  split
  · simp_all
  · unfold opcode_dispatch
    split <;>
      first
      | exact instr_bank0_probe_fine b rest hw
      | exact instr_bank1_probe_fine b rest hw
      | exact instr_bank2_probe_fine b rest
      | exact instr_bank3_probe_fine b rest
      | exact instr_bank4_probe_fine b rest hw
      | exact instr_bank5_probe_fine b rest ha hb hw
      | exact instr_bank6_probe_fine b rest
      | trivial

set_option maxRecDepth 8192 in
set_option maxHeartbeats 1000000 in
/-- On a probe success outside the wideable forms, `wide_dispatch`
falls through to its default arm. -/
theorem wide_dispatch_not_wideable (input r : List Nat) (i : Instruction)
    (h : shortWideable i = false) :
    wide_dispatch input (.ok r i) =
      pbind (liftI (be_u8 input)) fun _ opcode => .err (.unknownInstruction opcode) := by
  cases i <;> first | rfl | simp [shortWideable] at h

/-- Claim C8: the trailing bytes of `invokedynamic` (two mandated-zero
bytes) and `invokeinterface` (one mandated-zero byte) are consumed but
influence neither success nor the decoded instruction nor the
remainder: two inputs differing only in those bytes decode to the
same `.ok` result. -/
theorem c8_trailer_bytes_ignored (i1 i0 t1 t2 t1' t2' c z z' : Nat) (rest : List Nat) :
    (parse_instruction (0xba :: i1 :: i0 :: t1 :: t2 :: rest) =
        .ok rest (.invokedynamic (u16_of i1 i0) 0 0) ∧
      parse_instruction (0xba :: i1 :: i0 :: t1' :: t2' :: rest) =
        .ok rest (.invokedynamic (u16_of i1 i0) 0 0)) ∧
    (parse_instruction (0xb9 :: i1 :: i0 :: c :: z :: rest) =
        .ok rest (.invokeinterface (u16_of i1 i0) c 0) ∧
      parse_instruction (0xb9 :: i1 :: i0 :: c :: z' :: rest) =
        .ok rest (.invokeinterface (u16_of i1 i0) c 0)) :=
  ⟨⟨rfl, rfl⟩, ⟨rfl, rfl⟩⟩

/-- Claim C4 counterexample: with first byte 0xc4 and existing second
byte 0xaa — which is outside the wideable set — the decoder panics in
the probe's `unimplemented!("tableswitch")` arm instead of failing
with `UnknownInstruction(0xaa)` as claimed. -/
theorem c4_counterexample_wide_tableswitch_panics :
    parse_instruction [0xc4, 0xaa] = .panic "tableswitch" ∧
    parse_instruction [0xc4, 0xaa] ≠ .err (.unknownInstruction 0xaa) := by
  refine ⟨rfl, ?_⟩
  have h : parse_instruction [0xc4, 0xaa] = .panic "tableswitch" := rfl
  rw [h]
  simp

/-- Claim C4 (amended): for inputs 0xc4 followed by byte `b`: if `b`
is one of the twelve wideable opcodes and enough operand bytes follow,
decoding succeeds with the wide form carrying the big-endian u16
operand (u16 plus i16 for iinc); if `b` is outside the wideable set
and also outside {0xaa, 0xab, 0xc4} (whose probes panic or recurse
into a panic), decoding fails with `UnknownInstruction(b)`. -/
theorem c4_wide_dispatch (h l : Nat) (rest : List Nat) :
    (parse_instruction (0xc4 :: 0x15 :: h :: l :: rest) = .ok rest (.wideIload (u16_of h l)) ∧
     parse_instruction (0xc4 :: 0x17 :: h :: l :: rest) = .ok rest (.wideFload (u16_of h l)) ∧
     parse_instruction (0xc4 :: 0x19 :: h :: l :: rest) = .ok rest (.wideAload (u16_of h l)) ∧
     parse_instruction (0xc4 :: 0x16 :: h :: l :: rest) = .ok rest (.wideLload (u16_of h l)) ∧
     parse_instruction (0xc4 :: 0x18 :: h :: l :: rest) = .ok rest (.wideDload (u16_of h l)) ∧
     parse_instruction (0xc4 :: 0x36 :: h :: l :: rest) = .ok rest (.wideIstore (u16_of h l)) ∧
     parse_instruction (0xc4 :: 0x38 :: h :: l :: rest) = .ok rest (.wideFstore (u16_of h l)) ∧
     parse_instruction (0xc4 :: 0x3a :: h :: l :: rest) = .ok rest (.wideAstore (u16_of h l)) ∧
     parse_instruction (0xc4 :: 0x37 :: h :: l :: rest) = .ok rest (.wideLstore (u16_of h l)) ∧
     parse_instruction (0xc4 :: 0x39 :: h :: l :: rest) = .ok rest (.wideDstore (u16_of h l)) ∧
     parse_instruction (0xc4 :: 0xa9 :: h :: l :: rest) = .ok rest (.wideRet (u16_of h l))) ∧
    (∀ c d : Nat, ∀ tail : List Nat,
      parse_instruction (0xc4 :: 0x84 :: h :: l :: c :: d :: tail) =
        .ok tail (.wideIinc (u16_of h l) (toSigned 16 (u16_of c d)))) ∧
    (∀ b : Nat, ∀ tail : List Nat, b ∉ wideableOpcodes →
      b ≠ 0xaa → b ≠ 0xab → b ≠ 0xc4 →
      parse_instruction (0xc4 :: b :: tail) = .err (.unknownInstruction b)) := by
  refine ⟨⟨rfl, rfl, rfl, rfl, rfl, rfl, rfl, rfl, rfl, rfl, rfl⟩,
    fun c d tail => rfl, fun b tail hw ha hb hc => ?_⟩
  have hstep : parse_instruction (0xc4 :: b :: tail) =
      wide_dispatch (b :: tail) (parse_instruction (b :: tail)) := rfl
  have hp := probe_spec b tail ha hb hc hw
  rw [hstep]
  cases hpr : parse_instruction (b :: tail) with
  | ok r i =>
      rw [hpr] at hp
      rw [wide_dispatch_not_wideable _ _ _ hp]
      rfl
  | err e => rfl
  | panic m => rw [hpr] at hp; exact hp.elim

/-- Claim C4 witness: the wide iload example bytes 0xc4 0x15 0x01 0x02
decode to WideIload(258), and the non-wideable probe byte 0x00 yields
`UnknownInstruction(0)`. -/
theorem c4_wide_dispatch_witness :
    parse_instruction [0xc4, 0x15, 0x01, 0x02] = .ok [] (.wideIload 258) ∧
    parse_instruction [0xc4, 0x00] = .err (.unknownInstruction 0) := by
  constructor
  · have h := (c4_wide_dispatch 0x01 0x02 []).1.1
    simpa [u16_of] using h
  · exact (c4_wide_dispatch 0 0 []).2.2 0 [] (by decide) (by decide) (by decide) (by decide)

/-! ## Attributes (src/crates/rj_core/src/class/attribute.rs)

The recursive `parse_attribute`/`parse_code` pair is embedded with a
fuel parameter instantiated to the input length by the
`parse_attribute` wrapper.  Every recursion level first consumes at
least six bytes (name index and length), so with fuel equal to the
input length the fuel-exhaustion branch is reached only on an empty
input, where it returns the same `EndOfInput` the source would; the
wrapper is therefore extensionally the source function. -/

/-- AttributeName: the fixed name table of the dispatcher.  In the
source only `Code` is present (`// WIP`). -/
inductive AttributeName where
  | code
deriving DecidableEq, Repr

/-- The UTF-8 bytes of the string `Code`. -/
def codeNameBytes : List Nat := [0x43, 0x6f, 0x64, 0x65]

/-- `AttributeName::from_name`: exact byte-string match. -/
def AttributeName.from_name (name : List Nat) : Option AttributeName :=
  if name = codeNameBytes then some .code else none

/-- ExceptionTableEntry. -/
structure ExceptionTableEntry where
  start_pc : Nat
  end_pc : Nat
  handler_pc : Nat
  catch_type : Nat
deriving DecidableEq, Repr

/-- Attribute: `Unknown` holds the raw payload bytes; `Code` holds the
decoded code attribute with its recursively decoded nested
attributes. -/
inductive Attribute where
  | unknown (data : List Nat)
  | code (max_stack max_locals : Nat) (code : List Nat)
      (exception_table : List ExceptionTableEntry)
      (attributes : List Attribute)

/-- `parser_exception_table_entry` (name as in the source). -/
def parser_exception_table_entry (input : List Nat) :
    PResult ClassParseError ExceptionTableEntry :=
  pbind (liftC (be_u16 input)) fun input start_pc =>
  pbind (liftC (be_u16 input)) fun input end_pc =>
  pbind (liftC (be_u16 input)) fun input handler_pc =>
  pbind (liftC (be_u16 input)) fun input catch_type =>
  .ok input ⟨start_pc, end_pc, handler_pc, catch_type⟩

/-- The repeated `for _ in 0..n { parse; push }` loop shape shared by
the exception-table, attribute, constant-pool, interface, field and
method loops of the source. -/
def parse_list {α : Type} (p : List Nat → PResult ClassParseError α) :
    Nat → List Nat → PResult ClassParseError (List α)
  | 0, input => .ok input []
  | n + 1, input =>
      pbind (p input) fun input x =>
      pbind (parse_list p n input) fun input xs =>
      .ok input (x :: xs)

/-- `parse_code`.  The Rust function receives `constant_pool` and the
`parse_attribute` function separately and always calls
`parse_attribute(input, constant_pool)`; here `pa` is that function
already applied to the constant pool. -/
def parse_code (pa : List Nat → PResult ClassParseError Attribute)
    (input : List Nat) : PResult ClassParseError Attribute :=
  pbind (liftC (be_u16 input)) fun input max_stack =>
  pbind (liftC (be_u16 input)) fun input max_locals =>
  pbind (liftC (be_u32 input)) fun input code_length =>
  pbind (liftC (bytes input code_length)) fun input code =>
  pbind (liftC (be_u16 input)) fun input exception_table_length =>
  pbind (parse_list parser_exception_table_entry exception_table_length input)
    fun input exception_table =>
  pbind (liftC (be_u16 input)) fun input attributes_count =>
  pbind (parse_list pa attributes_count input) fun input attributes =>
  .ok input (.code max_stack max_locals code exception_table attributes)

/-- `constant_pool.get(attribute_name_index as usize - 1)` with
release-mode wrapping subtraction (index 0 wraps to 2^64 − 1, which is
out of range for any real pool and yields `None`). -/
def cp_get (constant_pool : List Constant) (index : Nat) : Option Constant :=
  constant_pool.get? ((index + (2 ^ 64 - 1)) % 2 ^ 64)

/-- Fueled form of `parse_attribute`: name index, pool lookup (must be
Utf8), length, then either the `Code` sub-decoder (recursing with one
less fuel) or an `Unknown` blob of exactly `length` bytes. -/
def parse_attributeF : Nat → List Constant → List Nat →
    PResult ClassParseError Attribute
  | 0, _, _ => .err (.parseError .eof)
  | fuel + 1, constant_pool, input =>
      pbind (liftC (be_u16 input)) fun input attribute_name_index =>
      match cp_get constant_pool attribute_name_index with
      | some (.utf8 name) =>
          pbind (liftC (be_u32 input)) fun input attribute_length =>
          match AttributeName.from_name name with
          | some .code => parse_code (parse_attributeF fuel constant_pool) input
          | none =>
              pbind (liftC (bytes input attribute_length)) fun input data =>
              .ok input (.unknown data)
      | _ => .err (.invalidConstantPoolIndex attribute_name_index)

/-- `parse_attribute` (argument order `constant_pool` then `input`). -/
def parse_attribute (constant_pool : List Constant) (input : List Nat) :
    PResult ClassParseError Attribute :=
  parse_attributeF input.length constant_pool input

/-! ## Fields, methods, classfile
(src/crates/rj_core/src/class/field.rs, method.rs, classfile.rs) -/

/-- Field. -/
structure Field where
  access_flags : FieldAccessFlags
  name_index : Nat
  descriptor_index : Nat
  attributes : List Attribute

/-- `parse_field`. -/
def parse_field (constant_pool : List Constant) (input : List Nat) :
    PResult ClassParseError Field :=
  pbind (liftC (be_u16 input)) fun input access_flags =>
  pbind (liftC (be_u16 input)) fun input name_index =>
  pbind (liftC (be_u16 input)) fun input descriptor_index =>
  pbind (liftC (be_u16 input)) fun input attributes_count =>
  pbind (parse_list (parse_attribute constant_pool) attributes_count input)
    fun input attributes =>
  .ok input ⟨FieldAccessFlags.from_bits access_flags, name_index,
    descriptor_index, attributes⟩

/-- Method. -/
structure Method where
  access_flags : MethodAccessFlags
  name_index : Nat
  descriptor_index : Nat
  attributes : List Attribute

/-- `parse_method`. -/
def parse_method (constant_pool : List Constant) (input : List Nat) :
    PResult ClassParseError Method :=
  pbind (liftC (be_u16 input)) fun input access_flags =>
  pbind (liftC (be_u16 input)) fun input name_index =>
  pbind (liftC (be_u16 input)) fun input descriptor_index =>
  pbind (liftC (be_u16 input)) fun input attributes_count =>
  pbind (parse_list (parse_attribute constant_pool) attributes_count input)
    fun input attributes =>
  .ok input ⟨MethodAccessFlags.from_bits access_flags, name_index,
    descriptor_index, attributes⟩

/-- ClassFile. -/
structure ClassFile where
  magic : Nat
  minor_version : Nat
  major_version : Nat
  constant_pool : List Constant
  access_flags : ClassAccessFlags
  this_class : Nat
  super_class : Nat
  interfaces : List Nat
  fields : List Field
  methods : List Method
  attributes : List Attribute

/-- `parse_classfile`: strict sequential decode.  The constant-pool
loop `for _ in 1..constant_pool_count` runs `count − 1` times for
`count ≥ 1` and zero times for `count = 0`, which is exactly
`parse_list parse_constant (count - 1)` under truncated subtraction. -/
def parse_classfile (input : List Nat) : PResult ClassParseError ClassFile :=
  pbind (liftC (be_u32 input)) fun input magic =>
  pbind (liftC (be_u16 input)) fun input minor_version =>
  pbind (liftC (be_u16 input)) fun input major_version =>
  pbind (liftC (be_u16 input)) fun input constant_pool_count =>
  pbind (parse_list parse_constant (constant_pool_count - 1) input)
    fun input constant_pool =>
  pbind (liftC (be_u16 input)) fun input access_flags =>
  pbind (liftC (be_u16 input)) fun input this_class =>
  pbind (liftC (be_u16 input)) fun input super_class =>
  pbind (liftC (be_u16 input)) fun input interfaces_count =>
  pbind (parse_list (fun i => liftC (be_u16 i)) interfaces_count input)
    fun input interfaces =>
  pbind (liftC (be_u16 input)) fun input fields_count =>
  pbind (parse_list (parse_field constant_pool) fields_count input)
    fun input fields =>
  pbind (liftC (be_u16 input)) fun input methods_count =>
  pbind (parse_list (parse_method constant_pool) methods_count input)
    fun input methods =>
  pbind (liftC (be_u16 input)) fun input attributes_count =>
  pbind (parse_list (parse_attribute constant_pool) attributes_count input)
    fun input attributes =>
  .ok input ⟨magic, minor_version, major_version, constant_pool,
    ClassAccessFlags.from_bits access_flags, this_class, super_class,
    interfaces, fields, methods, attributes⟩

/-- Claim C2 counterexample: an attribute record whose name resolves
to the Utf8 constant `SourceFile` (declared length 0) is decoded as an
opaque `Unknown` blob — the dispatcher recognizes only `Code` — while
the claim mandates the SourceFile sub-decoder, which reads a u16
`sourcefile_index` and would fail with `EndOfInput` here. -/
theorem c2_counterexample_sourcefile_is_unknown :
    parse_attribute
      [Constant.utf8 [0x53, 0x6f, 0x75, 0x72, 0x63, 0x65, 0x46, 0x69, 0x6c, 0x65]]
      [0x00, 0x01, 0x00, 0x00, 0x00, 0x00] = .ok [] (.unknown []) := rfl

/-- Claim C2 (amended): when the name index resolves to a Utf8
constant, the resolved name is matched exactly against the single
known name `Code` (the dispatcher's whole table); `Code` enters the
code sub-decoder, and any other name — including `LineNumberTable`
and `SourceFile` — yields an `Unknown` attribute holding exactly
`length` payload bytes, never failing when at least `length` bytes
remain (and failing only with `EndOfInput` otherwise). -/
theorem c2_attribute_dispatch (cp : List Constant) (n1 n0 l3 l2 l1 l0 : Nat)
    (rest : List Nat) (name : List Nat)
    (hname : cp_get cp (u16_of n1 n0) = some (.utf8 name)) :
    (name = codeNameBytes →
      parse_attribute cp (n1 :: n0 :: l3 :: l2 :: l1 :: l0 :: rest) =
        parse_code (parse_attributeF (rest.length + 5) cp) rest) ∧
    (name ≠ codeNameBytes → u32_of l3 l2 l1 l0 ≤ rest.length →
      parse_attribute cp (n1 :: n0 :: l3 :: l2 :: l1 :: l0 :: rest) =
        .ok (rest.drop (u32_of l3 l2 l1 l0))
          (.unknown (rest.take (u32_of l3 l2 l1 l0)))) ∧
    (name ≠ codeNameBytes → rest.length < u32_of l3 l2 l1 l0 →
      parse_attribute cp (n1 :: n0 :: l3 :: l2 :: l1 :: l0 :: rest) =
        .err (.parseError .eof)) := by
  have hunfold : parse_attribute cp (n1 :: n0 :: l3 :: l2 :: l1 :: l0 :: rest) =
      parse_attributeF (rest.length + 5 + 1) cp
        (n1 :: n0 :: l3 :: l2 :: l1 :: l0 :: rest) := by
    simp [parse_attribute, List.length_cons]
  refine ⟨fun hc => ?_, fun hnc hle => ?_, fun hnc hlt => ?_⟩ <;>
    rw [hunfold] <;>
    simp only [parse_attributeF, be_u16, liftC_ok, pbind_ok, hname, be_u32]
  · simp [AttributeName.from_name, hc]
  · simp [AttributeName.from_name, hnc, bytes, Nat.not_lt.mpr hle]
  · simp [AttributeName.from_name, hnc, bytes, hlt]

/-- Claim C2 witness: instantiates the amended dispatch theorem on a
pool whose first entry is the Utf8 name `Custom` and a 2-byte payload,
yielding an Unknown attribute with exactly those 2 bytes. -/
theorem c2_attribute_dispatch_witness :
    parse_attribute [Constant.utf8 [0x43, 0x75, 0x73, 0x74, 0x6f, 0x6d]]
      [0x00, 0x01, 0x00, 0x00, 0x00, 0x02, 0x07, 0x08, 0x09] =
      .ok [0x09] (.unknown [0x07, 0x08]) := by
  have h := (c2_attribute_dispatch
      [Constant.utf8 [0x43, 0x75, 0x73, 0x74, 0x6f, 0x6d]]
      0 1 0 0 0 2 [0x07, 0x08, 0x09]
      [0x43, 0x75, 0x73, 0x74, 0x6f, 0x6d] (by rfl)).2.1
      (by decide) (by norm_num [u32_of])
  simpa [u32_of] using h

/-! ## Inversion lemmas for successful reads -/

theorem pbind_eq_ok {ε α β : Type} {x : PResult ε α}
    {k : List Nat → α → PResult ε β} {r : List Nat} {v : β}
    (h : pbind x k = .ok r v) : ∃ r1 v1, x = .ok r1 v1 ∧ k r1 v1 = .ok r v := by
  cases x with
  | ok r1 v1 => exact ⟨r1, v1, rfl, h⟩
  | err e => exact absurd h (by simp [pbind])
  | panic m => exact absurd h (by simp [pbind])

theorem liftC_eq_ok {α : Type} {x : PResult ParseError α} {r : List Nat} {v : α}
    (h : liftC x = .ok r v) : x = .ok r v := by
  cases x with
  | ok r1 v1 => simpa [liftC] using h
  | err e => exact absurd h (by simp [liftC])
  | panic m => exact absurd h (by simp [liftC])

theorem be_u8_eq_ok {input r : List Nat} {v : Nat}
    (h : be_u8 input = .ok r v) : input = v :: r := by
  cases input <;> simp_all [be_u8]

theorem be_u16_eq_ok {input r : List Nat} {v : Nat}
    (h : be_u16 input = .ok r v) :
    ∃ b1 b0, input = b1 :: b0 :: r ∧ v = u16_of b1 b0 := by
  rcases input with _ | ⟨a, _ | ⟨b, t⟩⟩
  · exact absurd h (by simp [be_u16])
  · exact absurd h (by simp [be_u16])
  · simp only [be_u16] at h
    injection h with h1 h2
    exact ⟨a, b, by rw [h1], h2.symm⟩

theorem be_u32_eq_ok {input r : List Nat} {v : Nat}
    (h : be_u32 input = .ok r v) :
    ∃ b3 b2 b1 b0, input = b3 :: b2 :: b1 :: b0 :: r ∧ v = u32_of b3 b2 b1 b0 := by
  rcases input with _ | ⟨a, _ | ⟨b, _ | ⟨c, _ | ⟨d, t⟩⟩⟩⟩
  · exact absurd h (by simp [be_u32])
  · exact absurd h (by simp [be_u32])
  · exact absurd h (by simp [be_u32])
  · exact absurd h (by simp [be_u32])
  · simp only [be_u32] at h
    injection h with h1 h2
    exact ⟨a, b, c, d, by rw [h1], h2.symm⟩

theorem be_i32_eq_ok {input r : List Nat} {v : Int}
    (h : be_i32 input = .ok r v) :
    ∃ b3 b2 b1 b0, input = b3 :: b2 :: b1 :: b0 :: r ∧
      v = toSigned 32 (u32_of b3 b2 b1 b0) := by
  rcases input with _ | ⟨a, _ | ⟨b, _ | ⟨c, _ | ⟨d, t⟩⟩⟩⟩
  · exact absurd h (by simp [be_i32])
  · exact absurd h (by simp [be_i32])
  · exact absurd h (by simp [be_i32])
  · exact absurd h (by simp [be_i32])
  · simp only [be_i32] at h
    injection h with h1 h2
    exact ⟨a, b, c, d, by rw [h1], h2.symm⟩

theorem be_i64_eq_ok {input r : List Nat} {v : Int}
    (h : be_i64 input = .ok r v) :
    ∃ b7 b6 b5 b4 b3 b2 b1 b0, input = b7 :: b6 :: b5 :: b4 :: b3 :: b2 :: b1 :: b0 :: r ∧
      v = toSigned 64 (u64_of b7 b6 b5 b4 b3 b2 b1 b0) := by
  rcases input with _ | ⟨a, _ | ⟨b, _ | ⟨c, _ | ⟨d, _ | ⟨e, _ | ⟨f, _ | ⟨g, _ | ⟨h8, t⟩⟩⟩⟩⟩⟩⟩⟩
  on_goal 9 =>
    simp only [be_i64] at h
    injection h with h1 h2
    exact ⟨a, b, c, d, e, f, g, h8, by rw [h1], h2.symm⟩
  all_goals exact absurd h (by simp [be_i64])

theorem be_f32_eq_ok {input r : List Nat} {v : Nat}
    (h : be_f32 input = .ok r v) :
    ∃ b3 b2 b1 b0, input = b3 :: b2 :: b1 :: b0 :: r ∧ v = u32_of b3 b2 b1 b0 := by
  rcases input with _ | ⟨a, _ | ⟨b, _ | ⟨c, _ | ⟨d, t⟩⟩⟩⟩
  on_goal 5 =>
    simp only [be_f32] at h
    injection h with h1 h2
    exact ⟨a, b, c, d, by rw [h1], h2.symm⟩
  all_goals exact absurd h (by simp [be_f32])

theorem be_f64_eq_ok {input r : List Nat} {v : Nat}
    (h : be_f64 input = .ok r v) :
    ∃ b7 b6 b5 b4 b3 b2 b1 b0, input = b7 :: b6 :: b5 :: b4 :: b3 :: b2 :: b1 :: b0 :: r ∧
      v = u64_of b7 b6 b5 b4 b3 b2 b1 b0 := by
  rcases input with _ | ⟨a, _ | ⟨b, _ | ⟨c, _ | ⟨d, _ | ⟨e, _ | ⟨f, _ | ⟨g, _ | ⟨h8, t⟩⟩⟩⟩⟩⟩⟩⟩
  on_goal 9 =>
    simp only [be_f64] at h
    injection h with h1 h2
    exact ⟨a, b, c, d, e, f, g, h8, by rw [h1], h2.symm⟩
  all_goals exact absurd h (by simp [be_f64])

theorem bytes_eq_ok {input r : List Nat} {n : Nat} {v : List Nat}
    (h : bytes input n = .ok r v) :
    n ≤ input.length ∧ r = input.drop n ∧ v = input.take n := by
  by_cases hl : input.length < n <;> simp_all [bytes]

/-! ## No class-level decoder panics -/

theorem okOrEof_noPanic {α : Type} {x : PResult ClassParseError α}
    (h : OkOrEof x) : NoPanic x := by
  rcases h with h | ⟨r, v, h⟩ <;> subst h
  · exact noPanic_err _
  · exact noPanic_ok _ _

theorem noPanic_parse_constant (input : List Nat) : NoPanic (parse_constant input) := by
  unfold parse_constant
  refine noPanic_pbind (noPanic_liftC (noPanic_be_u8 input)) fun r v => ?_
  obtain ⟨h1, h2, h3, h4, h5, h6, h7, h8, h9, h10, h11, h12, h13, h14, h15, h16, h17⟩ :=
    record_decoders_okOrEof r
  cases ConstantTag.from_u8 v with
  | none => exact noPanic_err _
  | some t =>
      cases t <;>
        first
        | exact okOrEof_noPanic h1
        | exact okOrEof_noPanic h2
        | exact okOrEof_noPanic h3
        | exact okOrEof_noPanic h4
        | exact okOrEof_noPanic h5
        | exact okOrEof_noPanic h6
        | exact okOrEof_noPanic h7
        | exact okOrEof_noPanic h8
        | exact okOrEof_noPanic h9
        | exact okOrEof_noPanic h10
        | exact okOrEof_noPanic h11
        | exact okOrEof_noPanic h12
        | exact okOrEof_noPanic h13
        | exact okOrEof_noPanic h14
        | exact okOrEof_noPanic h15
        | exact okOrEof_noPanic h16
        | exact okOrEof_noPanic h17

theorem noPanic_parse_base_type (input : List Nat) : NoPanic (parse_base_type input) := by
  cases input with
  | nil => exact noPanic_err _
  | cons t r =>
      simp only [parse_base_type]
      split_ifs <;> first | exact noPanic_ok _ _ | exact noPanic_err _

theorem noPanic_parse_object_type (input : List Nat) : NoPanic (parse_object_type input) := by
  cases input with
  | nil => exact noPanic_err _
  | cons t r =>
      simp only [parse_object_type]
      split_ifs
      · exact noPanic_pbind (noPanic_liftC (noPanic_take_until r _)) fun r2 v2 =>
          noPanic_ok _ _
      · exact noPanic_err _

theorem noPanic_parse_field_type (input : List Nat) : NoPanic (parse_field_type input) := by
  induction input with
  | nil => exact noPanic_err _
  | cons t r ih =>
      unfold parse_field_type
      split
      · exact noPanic_ok _ _
      · split
        · exact noPanic_ok _ _
        · split_ifs
          · split
            · exact noPanic_ok _ _
            · exact noPanic_err _
            · rename_i m heq
              exact absurd heq (ih m)
          · exact noPanic_err _

theorem noPanic_parse_return_type (input : List Nat) : NoPanic (parse_return_type input) := by
  unfold parse_return_type
  refine noPanic_pbind (noPanic_liftC (noPanic_be_u8 input)) fun r v => ?_
  split_ifs
  · exact noPanic_ok _ _
  · exact noPanic_pbind (noPanic_parse_field_type r) fun r2 v2 => noPanic_ok _ _

theorem noPanic_parse_method_descriptor (input : List Nat) :
    NoPanic (parse_method_descriptor input) := by
  unfold parse_method_descriptor
  refine noPanic_pbind (noPanic_liftC (noPanic_be_u8 input)) fun r v => ?_
  refine noPanic_pbind (noPanic_parse_field_type r) fun r2 v2 => ?_
  exact noPanic_pbind (noPanic_parse_return_type _) fun r3 v3 => noPanic_ok _ _

theorem noPanic_parse_list {α : Type} {p : List Nat → PResult ClassParseError α}
    (hp : ∀ x, NoPanic (p x)) : ∀ (n : Nat) (input : List Nat),
    NoPanic (parse_list p n input) := by
  intro n
  induction n with
  | zero => exact fun input => noPanic_ok _ _
  | succ n ih =>
      intro input
      exact noPanic_pbind (hp input) fun r v =>
        noPanic_pbind (ih r) fun r2 v2 => noPanic_ok _ _

theorem noPanic_parser_exception_table_entry (input : List Nat) :
    NoPanic (parser_exception_table_entry input) := by
  unfold parser_exception_table_entry
  refine noPanic_pbind (noPanic_liftC (noPanic_be_u16 _)) fun r v => ?_
  refine noPanic_pbind (noPanic_liftC (noPanic_be_u16 _)) fun r v => ?_
  refine noPanic_pbind (noPanic_liftC (noPanic_be_u16 _)) fun r v => ?_
  exact noPanic_pbind (noPanic_liftC (noPanic_be_u16 _)) fun r v => noPanic_ok _ _

theorem noPanic_parse_code {pa : List Nat → PResult ClassParseError Attribute}
    (hpa : ∀ x, NoPanic (pa x)) (input : List Nat) : NoPanic (parse_code pa input) := by
  unfold parse_code
  refine noPanic_pbind (noPanic_liftC (noPanic_be_u16 _)) fun r v => ?_
  refine noPanic_pbind (noPanic_liftC (noPanic_be_u16 _)) fun r v => ?_
  refine noPanic_pbind (noPanic_liftC (noPanic_be_u32 _)) fun r v => ?_
  refine noPanic_pbind (noPanic_liftC (noPanic_bytes _ _)) fun r v => ?_
  refine noPanic_pbind (noPanic_liftC (noPanic_be_u16 _)) fun r v => ?_
  refine noPanic_pbind (noPanic_parse_list noPanic_parser_exception_table_entry _ _)
    fun r v => ?_
  refine noPanic_pbind (noPanic_liftC (noPanic_be_u16 _)) fun r v => ?_
  exact noPanic_pbind (noPanic_parse_list hpa _ _) fun r v => noPanic_ok _ _

theorem noPanic_parse_attributeF : ∀ (fuel : Nat) (cp : List Constant) (input : List Nat),
    NoPanic (parse_attributeF fuel cp input) := by
  intro fuel
  induction fuel with
  | zero => exact fun cp input => noPanic_err _
  | succ f ih =>
      intro cp input
      unfold parse_attributeF
      refine noPanic_pbind (noPanic_liftC (noPanic_be_u16 _)) fun r v => ?_
      cases cp_get cp v with
      | none => exact noPanic_err _
      | some c =>
          cases c <;> try exact noPanic_err _
          refine noPanic_pbind (noPanic_liftC (noPanic_be_u32 _)) fun r2 v2 => ?_
          rename_i name
          cases AttributeName.from_name name with
          | none =>
              exact noPanic_pbind (noPanic_liftC (noPanic_bytes _ _)) fun r3 v3 =>
                noPanic_ok _ _
          | some a =>
              cases a
              exact noPanic_parse_code (fun x => ih cp x) r2

theorem noPanic_parse_attribute (cp : List Constant) (input : List Nat) :
    NoPanic (parse_attribute cp input) :=
  noPanic_parse_attributeF input.length cp input

theorem noPanic_parse_field (cp : List Constant) (input : List Nat) :
    NoPanic (parse_field cp input) := by
  unfold parse_field
  refine noPanic_pbind (noPanic_liftC (noPanic_be_u16 _)) fun r v => ?_
  refine noPanic_pbind (noPanic_liftC (noPanic_be_u16 _)) fun r v => ?_
  refine noPanic_pbind (noPanic_liftC (noPanic_be_u16 _)) fun r v => ?_
  refine noPanic_pbind (noPanic_liftC (noPanic_be_u16 _)) fun r v => ?_
  exact noPanic_pbind (noPanic_parse_list (noPanic_parse_attribute cp) _ _)
    fun r v => noPanic_ok _ _

theorem noPanic_parse_method (cp : List Constant) (input : List Nat) :
    NoPanic (parse_method cp input) := by
  unfold parse_method
  refine noPanic_pbind (noPanic_liftC (noPanic_be_u16 _)) fun r v => ?_
  refine noPanic_pbind (noPanic_liftC (noPanic_be_u16 _)) fun r v => ?_
  refine noPanic_pbind (noPanic_liftC (noPanic_be_u16 _)) fun r v => ?_
  refine noPanic_pbind (noPanic_liftC (noPanic_be_u16 _)) fun r v => ?_
  exact noPanic_pbind (noPanic_parse_list (noPanic_parse_attribute cp) _ _)
    fun r v => noPanic_ok _ _

theorem noPanic_parse_classfile (input : List Nat) : NoPanic (parse_classfile input) := by
  unfold parse_classfile
  refine noPanic_pbind (noPanic_liftC (noPanic_be_u32 _)) fun r v => ?_
  refine noPanic_pbind (noPanic_liftC (noPanic_be_u16 _)) fun r v => ?_
  refine noPanic_pbind (noPanic_liftC (noPanic_be_u16 _)) fun r v => ?_
  refine noPanic_pbind (noPanic_liftC (noPanic_be_u16 _)) fun r v => ?_
  refine noPanic_pbind (noPanic_parse_list noPanic_parse_constant _ _) fun r cp => ?_
  refine noPanic_pbind (noPanic_liftC (noPanic_be_u16 _)) fun r v => ?_
  refine noPanic_pbind (noPanic_liftC (noPanic_be_u16 _)) fun r v => ?_
  refine noPanic_pbind (noPanic_liftC (noPanic_be_u16 _)) fun r v => ?_
  refine noPanic_pbind (noPanic_liftC (noPanic_be_u16 _)) fun r v => ?_
  refine noPanic_pbind
    (noPanic_parse_list (fun x => noPanic_liftC (noPanic_be_u16 x)) _ _) fun r v => ?_
  refine noPanic_pbind (noPanic_liftC (noPanic_be_u16 _)) fun r v => ?_
  refine noPanic_pbind (noPanic_parse_list (noPanic_parse_field cp) _ _) fun r v => ?_
  refine noPanic_pbind (noPanic_liftC (noPanic_be_u16 _)) fun r v => ?_
  refine noPanic_pbind (noPanic_parse_list (noPanic_parse_method cp) _ _) fun r v => ?_
  refine noPanic_pbind (noPanic_liftC (noPanic_be_u16 _)) fun r v => ?_
  exact noPanic_pbind (noPanic_parse_list (noPanic_parse_attribute cp) _ _)
    fun r v => noPanic_ok _ _

/-- Claim C1 counterexample: `parse_instruction` on the one-byte input
0xaa does not return a decoded value or a typed error — it panics in
the `unimplemented!("tableswitch")` arm. -/
theorem c1_counterexample_tableswitch_panics :
    parse_instruction [0xaa] = .panic "tableswitch" ∧
    (∀ e : InstructionParseError, parse_instruction [0xaa] ≠ .err e) ∧
    (∀ (r : List Nat) (i : Instruction), parse_instruction [0xaa] ≠ .ok r i) := by
  have h : parse_instruction [0xaa] = .panic "tableswitch" := rfl
  refine ⟨h, fun e he => ?_, fun r i hi => ?_⟩
  · rw [h] at he; exact PResult.noConfusion he
  · rw [h] at hi; exact PResult.noConfusion hi

/-- Claim C1 (amended): parse_classfile, parse_constant,
parse_attribute, parse_field_type and parse_method_descriptor are
total and never panic — every outcome is a decoded value or a typed
error; parse_instruction never panics for opcodes other than 0xaa,
0xab and the wide prefix 0xc4, but panics via `unimplemented!` when
the opcode is 0xaa (tableswitch) or 0xab (lookupswitch); and
parse_attribute on a record with attribute_name_index 0 yields the
typed error `InvalidConstantPoolIndex(0)` (the wrapping index
arithmetic produces an out-of-range pool slot). -/
theorem c1_decoding_totality :
    (∀ input : List Nat, NoPanic (parse_classfile input)) ∧
    (∀ input : List Nat, NoPanic (parse_constant input)) ∧
    (∀ (cp : List Constant) (input : List Nat), NoPanic (parse_attribute cp input)) ∧
    (∀ input : List Nat, NoPanic (parse_field_type input)) ∧
    (∀ input : List Nat, NoPanic (parse_method_descriptor input)) ∧
    (∀ (b : Nat) (rest : List Nat), b ≠ 0xaa → b ≠ 0xab → b ≠ 0xc4 →
      NoPanic (parse_instruction (b :: rest))) ∧
    (∀ rest : List Nat, parse_instruction (0xaa :: rest) = .panic "tableswitch" ∧
      parse_instruction (0xab :: rest) = .panic "lookupswitch") ∧
    (∀ (cp : List Constant) (rest : List Nat), cp.length < 2 ^ 64 - 1 →
      parse_attribute cp (0x00 :: 0x00 :: rest) = .err (.invalidConstantPoolIndex 0)) := by
  refine ⟨noPanic_parse_classfile, noPanic_parse_constant, noPanic_parse_attribute,
    noPanic_parse_field_type, noPanic_parse_method_descriptor, instr_no_panic,
    fun rest => ⟨rfl, rfl⟩, fun cp rest hcp => ?_⟩
  have hcg : cp_get cp (u16_of 0 0) = none := by
    unfold cp_get
    apply List.get?_len_le
    have h2 : (u16_of 0 0 + (2 ^ 64 - 1)) % 2 ^ 64 = 2 ^ 64 - 1 := by
      norm_num [u16_of]
    omega
  show parse_attributeF (rest.length + 1 + 1) cp (0x00 :: 0x00 :: rest) = _
  unfold parse_attributeF
  simp only [be_u16, liftC_ok, pbind_ok, hcg]
  norm_num [u16_of]

/-- Claim C1 witness: the amended theorem applied at concrete inputs —
opcode 0x00 never panics, and an attribute record with name index 0
against an empty pool yields `InvalidConstantPoolIndex(0)`. -/
theorem c1_decoding_totality_witness :
    parse_instruction [0x00] ≠ .panic "boom" ∧
    parse_attribute [] [0x00, 0x00] = .err (.invalidConstantPoolIndex 0) := by
  constructor
  · exact c1_decoding_totality.2.2.2.2.2.1 0 [] (by decide) (by decide) (by decide) "boom"
  · exact c1_decoding_totality.2.2.2.2.2.2.2 [] [] (by norm_num)

/-- Length of a successfully parsed repetition: `parse_list p n`
produces exactly `n` elements — one slot per decoded element,
whatever the element is. -/
theorem parse_list_length {α : Type} {p : List Nat → PResult ClassParseError α} :
    ∀ {n : Nat} {input r : List Nat} {xs : List α},
    parse_list p n input = .ok r xs → xs.length = n := by
  intro n
  induction n with
  | zero => intro input r xs h; simp [parse_list] at h; simp [h.2]
  | succ n ih =>
      intro input r xs h
      unfold parse_list at h
      obtain ⟨r1, v1, h1, h⟩ := pbind_eq_ok h
      obtain ⟨r2, v2, h2, h⟩ := pbind_eq_ok h
      have hv : xs = v1 :: v2 := by
        have := h
        simp at this
        exact this.2.symm
      subst hv
      simp [ih h2]

/-- Claim C7: a successful `parse_list` run applies its element
decoder exactly `n` times and stores exactly one slot per decoded
element (so Long and Double constants occupy one slot each); and a
successful `parse_classfile` run reads its `constant_pool_count` as
the big-endian u16 at offset 8 and produces a constant pool that is
exactly the `count − 1`-fold iteration of `parse_constant` (zero-fold
for count 0, under truncated subtraction), in encounter order, of
length `count − 1`. -/
theorem c7_constant_pool_loop :
    (∀ (α : Type) (p : List Nat → PResult ClassParseError α) (n : Nat)
        (input r : List Nat) (xs : List α),
      parse_list p n input = .ok r xs → xs.length = n) ∧
    (∀ (input r : List Nat) (cf : ClassFile),
      parse_classfile input = .ok r cf →
      ∃ count : Nat,
        be_u16 (input.drop 8) = .ok (input.drop 10) count ∧
        (∃ rest3 : List Nat,
          parse_list parse_constant (count - 1) (input.drop 10) =
            .ok rest3 cf.constant_pool) ∧
        cf.constant_pool.length = count - 1) := by
  constructor
  · exact fun α p n input r xs h => parse_list_length h
  · intro input r cf h
    unfold parse_classfile at h
    obtain ⟨i1, magic, h1, h⟩ := pbind_eq_ok h
    obtain ⟨b3, b2, b1, b0, hin1, hmagic⟩ := be_u32_eq_ok (liftC_eq_ok h1)
    obtain ⟨i2, minor, h2, h⟩ := pbind_eq_ok h
    obtain ⟨c1, c0, hin2, hminor⟩ := be_u16_eq_ok (liftC_eq_ok h2)
    obtain ⟨i3, major, h3, h⟩ := pbind_eq_ok h
    obtain ⟨d1, d0, hin3, hmajor⟩ := be_u16_eq_ok (liftC_eq_ok h3)
    obtain ⟨i4, count, h4, h⟩ := pbind_eq_ok h
    obtain ⟨e1, e0, hin4, hcount⟩ := be_u16_eq_ok (liftC_eq_ok h4)
    obtain ⟨i5, pool, hp, h⟩ := pbind_eq_ok h
    obtain ⟨i6, af, _, h⟩ := pbind_eq_ok h
    obtain ⟨i7, tc, _, h⟩ := pbind_eq_ok h
    obtain ⟨i8, sc, _, h⟩ := pbind_eq_ok h
    obtain ⟨i9, ic, _, h⟩ := pbind_eq_ok h
    obtain ⟨i10, ifs, _, h⟩ := pbind_eq_ok h
    obtain ⟨i11, fc, _, h⟩ := pbind_eq_ok h
    obtain ⟨i12, fls, _, h⟩ := pbind_eq_ok h
    obtain ⟨i13, mc, _, h⟩ := pbind_eq_ok h
    obtain ⟨i14, mts, _, h⟩ := pbind_eq_ok h
    obtain ⟨i15, ac, _, h⟩ := pbind_eq_ok h
    obtain ⟨i16, ats, _, h⟩ := pbind_eq_ok h
    have hdrop8 : input.drop 8 = e1 :: e0 :: i4 := by
      rw [hin1, hin2, hin3, hin4]; rfl
    have hdrop10 : input.drop 10 = i4 := by
      rw [hin1, hin2, hin3, hin4]; rfl
    have hcf : cf.constant_pool = pool := by
      have hinj : ClassFile.mk magic minor major pool
          (ClassAccessFlags.from_bits af) tc sc ifs fls mts ats = cf := by
        have h2 := h
        simp at h2
        exact h2.2
      rw [hinj.symm]
    refine ⟨count, ?_, ⟨i5, ?_⟩, ?_⟩
    · rw [hdrop8, hdrop10]
      simp [be_u16, hcount]
    · rw [hdrop10, hcf]
      exact hp
    · rw [hcf]
      exact parse_list_length hp

/-- Claim C7 witness bytes: a classfile with constant_pool_count 2 and
a single Long constant (value 42) in the pool. -/
def longClassfileBytes : List Nat :=
  [0xca, 0xfe, 0xba, 0xbe, 0x00, 0x00, 0x00, 0x00, 0x00, 0x02,
   0x05, 0x00, 0x00, 0x00, 0x00, 0x00, 0x00, 0x00, 0x2a,
   0x00, 0x00, 0x00, 0x00, 0x00, 0x00, 0x00, 0x00, 0x00, 0x00,
   0x00, 0x00, 0x00, 0x00]

/-- The decoded form of `longClassfileBytes`. -/
def longClassfileValue : ClassFile :=
  ⟨0xcafebabe, 0, 0, [.long 42], ClassAccessFlags.from_bits 0, 0, 0, [], [], [], []⟩

/-- Claim C7 witness: count 2 is read and the Long entry occupies
exactly one pool slot (length 1 = 2 − 1), with no extra slot
skipped. -/
theorem c7_constant_pool_loop_witness :
    parse_classfile longClassfileBytes = .ok [] longClassfileValue ∧
    longClassfileValue.constant_pool.length = 2 - 1 := by
  have h : parse_classfile longClassfileBytes = .ok [] longClassfileValue := by
    rfl
  refine ⟨h, ?_⟩
  obtain ⟨count, hc, _, hlen⟩ :=
    c7_constant_pool_loop.2 longClassfileBytes [] longClassfileValue h
  have he : be_u16 (longClassfileBytes.drop 8) =
      .ok (longClassfileBytes.drop 10) 2 := by decide
  rw [he] at hc
  have hc2 : count = 2 := by
    have h3 := hc
    simp at h3
    omega
  rw [hc2] at hlen
  exact hlen

/-! ## Suffix stability

`SuffixExt p p'` states that any successful parse by `p` is preserved
by `p'` when arbitrary bytes are appended to the input, with the same
value and the appended bytes carried through to the remainder.  The
two-function form is needed for the fueled attribute parser, whose two
sides run with different fuel. -/

/-- Suffix-extension relation between two decoders. -/
def SuffixExt {ε α : Type} (p p' : List Nat → PResult ε α) : Prop :=
  ∀ B S r v, p B = .ok r v → p' (B ++ S) = .ok (r ++ S) v

theorem suffixExt_bind {ε α β : Type} {p p' : List Nat → PResult ε α}
    {k k' : List Nat → α → PResult ε β}
    (hp : SuffixExt p p')
    (hk : ∀ v, SuffixExt (fun i => k i v) (fun i => k' i v)) :
    SuffixExt (fun input => pbind (p input) k) (fun input => pbind (p' input) k') := by
  intro B S r v h
  obtain ⟨r1, v1, h1, h2⟩ := pbind_eq_ok h
  show pbind (p' (B ++ S)) k' = .ok (r ++ S) v
  rw [hp B S r1 v1 h1, pbind_ok]
  exact hk v1 r1 S r v h2

theorem suffixExt_pure {ε α : Type} (c : α) :
    SuffixExt (fun i => (.ok i c : PResult ε α)) (fun i => .ok i c) := by
  intro B S r v h
  injection h with h1 h2
  rw [h1, h2]

theorem suffixExt_err {ε α : Type} (e : ε) :
    SuffixExt (fun _ => (.err e : PResult ε α)) (fun _ => .err e) :=
  fun _ _ _ _ h => absurd h (by simp)

theorem suffixExt_u8 :
    SuffixExt (fun i => liftC (be_u8 i)) (fun i => liftC (be_u8 i)) := by
  intro B S r v h
  rw [be_u8_eq_ok (liftC_eq_ok h)]
  rfl

theorem suffixExt_u16 :
    SuffixExt (fun i => liftC (be_u16 i)) (fun i => liftC (be_u16 i)) := by
  intro B S r v h
  obtain ⟨b1, b0, hb, hv⟩ := be_u16_eq_ok (liftC_eq_ok h)
  rw [hb, hv]
  rfl

theorem suffixExt_u32 :
    SuffixExt (fun i => liftC (be_u32 i)) (fun i => liftC (be_u32 i)) := by
  intro B S r v h
  obtain ⟨b3, b2, b1, b0, hb, hv⟩ := be_u32_eq_ok (liftC_eq_ok h)
  rw [hb, hv]
  rfl

theorem suffixExt_i32 :
    SuffixExt (fun i => liftC (be_i32 i)) (fun i => liftC (be_i32 i)) := by
  intro B S r v h
  obtain ⟨b3, b2, b1, b0, hb, hv⟩ := be_i32_eq_ok (liftC_eq_ok h)
  rw [hb, hv]
  rfl

theorem suffixExt_i64 :
    SuffixExt (fun i => liftC (be_i64 i)) (fun i => liftC (be_i64 i)) := by
  intro B S r v h
  obtain ⟨b7, b6, b5, b4, b3, b2, b1, b0, hb, hv⟩ := be_i64_eq_ok (liftC_eq_ok h)
  rw [hb, hv]
  rfl

theorem suffixExt_f32 :
    SuffixExt (fun i => liftC (be_f32 i)) (fun i => liftC (be_f32 i)) := by
  intro B S r v h
  obtain ⟨b3, b2, b1, b0, hb, hv⟩ := be_f32_eq_ok (liftC_eq_ok h)
  rw [hb, hv]
  rfl

theorem suffixExt_f64 :
    SuffixExt (fun i => liftC (be_f64 i)) (fun i => liftC (be_f64 i)) := by
  intro B S r v h
  obtain ⟨b7, b6, b5, b4, b3, b2, b1, b0, hb, hv⟩ := be_f64_eq_ok (liftC_eq_ok h)
  rw [hb, hv]
  rfl

theorem suffixExt_bytes (n : Nat) :
    SuffixExt (fun i => liftC (bytes i n)) (fun i => liftC (bytes i n)) := by
  intro B S r v h
  obtain ⟨hle, hr, hv⟩ := bytes_eq_ok (liftC_eq_ok h)
  have h1 : ¬ ((B ++ S).length < n) := by
    simp only [List.length_append]
    omega
  show liftC (bytes (B ++ S) n) = _
  simp only [bytes, h1, if_false, liftC_ok]
  rw [List.take_append_of_le_length hle, List.drop_append_of_le_length hle, hr, hv]

theorem suffixExt_parse_utf8 : SuffixExt parse_utf8 parse_utf8 := by
  refine suffixExt_bind suffixExt_u16 fun len => ?_
  exact suffixExt_bind (suffixExt_bytes len) fun w => suffixExt_pure _

theorem suffixExt_parse_integer : SuffixExt parse_integer parse_integer :=
  suffixExt_bind suffixExt_i32 fun v => suffixExt_pure _

theorem suffixExt_parse_float : SuffixExt parse_float parse_float :=
  suffixExt_bind suffixExt_f32 fun v => suffixExt_pure _

theorem suffixExt_parse_long : SuffixExt parse_long parse_long :=
  suffixExt_bind suffixExt_i64 fun v => suffixExt_pure _

theorem suffixExt_parse_double : SuffixExt parse_double parse_double :=
  suffixExt_bind suffixExt_f64 fun v => suffixExt_pure _

theorem suffixExt_parse_class : SuffixExt parse_class parse_class :=
  suffixExt_bind suffixExt_u16 fun v => suffixExt_pure _

theorem suffixExt_parse_string : SuffixExt parse_string parse_string :=
  suffixExt_bind suffixExt_u16 fun v => suffixExt_pure _

theorem suffixExt_parse_fieldref : SuffixExt parse_fieldref parse_fieldref :=
  suffixExt_bind suffixExt_u16 fun v =>
    suffixExt_bind suffixExt_u16 fun w => suffixExt_pure _

theorem suffixExt_parse_methodref : SuffixExt parse_methodref parse_methodref :=
  suffixExt_bind suffixExt_u16 fun v =>
    suffixExt_bind suffixExt_u16 fun w => suffixExt_pure _

theorem suffixExt_parse_interface_methodref :
    SuffixExt parse_interface_methodref parse_interface_methodref :=
  suffixExt_bind suffixExt_u16 fun v =>
    suffixExt_bind suffixExt_u16 fun w => suffixExt_pure _

theorem suffixExt_parse_name_and_type :
    SuffixExt parse_name_and_type parse_name_and_type :=
  suffixExt_bind suffixExt_u16 fun v =>
    suffixExt_bind suffixExt_u16 fun w => suffixExt_pure _

theorem suffixExt_parse_method_handle :
    SuffixExt parse_method_handle parse_method_handle :=
  suffixExt_bind suffixExt_u8 fun v =>
    suffixExt_bind suffixExt_u16 fun w => suffixExt_pure _

theorem suffixExt_parse_method_type : SuffixExt parse_method_type parse_method_type :=
  suffixExt_bind suffixExt_u16 fun v => suffixExt_pure _

theorem suffixExt_parse_dynamic : SuffixExt parse_dynamic parse_dynamic :=
  suffixExt_bind suffixExt_u16 fun v =>
    suffixExt_bind suffixExt_u16 fun w => suffixExt_pure _

theorem suffixExt_parse_invoke_dynamic :
    SuffixExt parse_invoke_dynamic parse_invoke_dynamic :=
  suffixExt_bind suffixExt_u16 fun v =>
    suffixExt_bind suffixExt_u16 fun w => suffixExt_pure _

theorem suffixExt_parse_module : SuffixExt parse_module parse_module :=
  suffixExt_bind suffixExt_u16 fun v => suffixExt_pure _

theorem suffixExt_parse_package : SuffixExt parse_package parse_package :=
  suffixExt_bind suffixExt_u16 fun v => suffixExt_pure _

theorem suffixExt_parse_constant : SuffixExt parse_constant parse_constant := by
  refine suffixExt_bind suffixExt_u8 fun tag => ?_
  cases htag : ConstantTag.from_u8 tag with
  | none =>
      try simp only [htag]
      exact suffixExt_err _
  | some t =>
      try simp only [htag]
      cases t <;>
        first
        | exact suffixExt_parse_utf8
        | exact suffixExt_parse_integer
        | exact suffixExt_parse_float
        | exact suffixExt_parse_long
        | exact suffixExt_parse_double
        | exact suffixExt_parse_class
        | exact suffixExt_parse_string
        | exact suffixExt_parse_fieldref
        | exact suffixExt_parse_methodref
        | exact suffixExt_parse_interface_methodref
        | exact suffixExt_parse_name_and_type
        | exact suffixExt_parse_method_handle
        | exact suffixExt_parse_method_type
        | exact suffixExt_parse_dynamic
        | exact suffixExt_parse_invoke_dynamic
        | exact suffixExt_parse_module
        | exact suffixExt_parse_package

theorem suffixExt_parse_list {α : Type} {p p' : List Nat → PResult ClassParseError α}
    (hp : SuffixExt p p') : ∀ n, SuffixExt (parse_list p n) (parse_list p' n) := by
  intro n
  induction n with
  | zero =>
      intro B S r v h
      simp only [parse_list] at h ⊢
      injection h with h1 h2
      rw [h1, h2]
  | succ n ih =>
      exact suffixExt_bind hp fun x => suffixExt_bind ih fun xs => suffixExt_pure _

theorem suffixExt_parser_exception_table_entry :
    SuffixExt parser_exception_table_entry parser_exception_table_entry :=
  suffixExt_bind suffixExt_u16 fun a =>
    suffixExt_bind suffixExt_u16 fun b =>
      suffixExt_bind suffixExt_u16 fun c =>
        suffixExt_bind suffixExt_u16 fun d => suffixExt_pure _

theorem suffixExt_parse_code {pa pa' : List Nat → PResult ClassParseError Attribute}
    (hpa : SuffixExt pa pa') : SuffixExt (parse_code pa) (parse_code pa') := by
  refine suffixExt_bind suffixExt_u16 fun max_stack => ?_
  refine suffixExt_bind suffixExt_u16 fun max_locals => ?_
  refine suffixExt_bind suffixExt_u32 fun code_length => ?_
  refine suffixExt_bind (suffixExt_bytes code_length) fun code => ?_
  refine suffixExt_bind suffixExt_u16 fun etl => ?_
  refine suffixExt_bind
    (suffixExt_parse_list suffixExt_parser_exception_table_entry etl) fun et => ?_
  refine suffixExt_bind suffixExt_u16 fun ac => ?_
  exact suffixExt_bind (suffixExt_parse_list hpa ac) fun ats => suffixExt_pure _

/-- Combined fuel-monotonicity and suffix-extension for the fueled
attribute parser. -/
theorem suffixExt_parse_attributeF : ∀ f f', f ≤ f' → ∀ cp : List Constant,
    SuffixExt (parse_attributeF f cp) (parse_attributeF f' cp) := by
  intro f
  induction f with
  | zero =>
      intro f' hle cp B S r v h
      exact absurd h (by simp [parse_attributeF])
  | succ f ih =>
      intro f' hle cp
      obtain ⟨f2, rfl⟩ : ∃ g, f' = g + 1 := ⟨f' - 1, by omega⟩
      refine suffixExt_bind suffixExt_u16 fun idx => ?_
      cases hcg : cp_get cp idx with
      | none =>
          simp only [hcg]
          exact suffixExt_err _
      | some c =>
          cases c <;> simp only [hcg] <;> try exact suffixExt_err _
          rename_i name
          refine suffixExt_bind suffixExt_u32 fun len => ?_
          cases hn : AttributeName.from_name name with
          | none =>
              simp only [hn]
              exact suffixExt_bind (suffixExt_bytes len) fun data => suffixExt_pure _
          | some a =>
              cases a
              simp only [hn]
              exact suffixExt_parse_code (ih f2 (by omega) cp)

theorem suffixExt_parse_attribute (cp : List Constant) :
    SuffixExt (parse_attribute cp) (parse_attribute cp) := by
  intro B S r v h
  exact suffixExt_parse_attributeF B.length (B ++ S).length (by simp) cp B S r v h

theorem suffixExt_parse_field (cp : List Constant) :
    SuffixExt (parse_field cp) (parse_field cp) := by
  refine suffixExt_bind suffixExt_u16 fun af => ?_
  refine suffixExt_bind suffixExt_u16 fun ni => ?_
  refine suffixExt_bind suffixExt_u16 fun di => ?_
  refine suffixExt_bind suffixExt_u16 fun ac => ?_
  exact suffixExt_bind (suffixExt_parse_list (suffixExt_parse_attribute cp) ac)
    fun ats => suffixExt_pure _

theorem suffixExt_parse_method (cp : List Constant) :
    SuffixExt (parse_method cp) (parse_method cp) := by
  refine suffixExt_bind suffixExt_u16 fun af => ?_
  refine suffixExt_bind suffixExt_u16 fun ni => ?_
  refine suffixExt_bind suffixExt_u16 fun di => ?_
  refine suffixExt_bind suffixExt_u16 fun ac => ?_
  exact suffixExt_bind (suffixExt_parse_list (suffixExt_parse_attribute cp) ac)
    fun ats => suffixExt_pure _

/-- Claim C9: `parse_classfile` is suffix-stable — a successful parse
of a buffer `B` with remainder `r` and ClassFile `cf` extends to
`B ++ S` for every byte sequence `S`, yielding remainder `r ++ S` and
the same ClassFile: the trailing bytes are never examined, never cause
failure, never change the result. -/
theorem c9_classfile_suffix_stable (B S r : List Nat) (cf : ClassFile)
    (h : parse_classfile B = .ok r cf) :
    parse_classfile (B ++ S) = .ok (r ++ S) cf := by
  have hext : SuffixExt parse_classfile parse_classfile := by
    refine suffixExt_bind suffixExt_u32 fun magic => ?_
    refine suffixExt_bind suffixExt_u16 fun minor => ?_
    refine suffixExt_bind suffixExt_u16 fun major => ?_
    refine suffixExt_bind suffixExt_u16 fun count => ?_
    refine suffixExt_bind (suffixExt_parse_list suffixExt_parse_constant _)
      fun cp => ?_
    refine suffixExt_bind suffixExt_u16 fun af => ?_
    refine suffixExt_bind suffixExt_u16 fun tc => ?_
    refine suffixExt_bind suffixExt_u16 fun sc => ?_
    refine suffixExt_bind suffixExt_u16 fun ic => ?_
    refine suffixExt_bind (suffixExt_parse_list suffixExt_u16 _) fun ifs => ?_
    refine suffixExt_bind suffixExt_u16 fun fc => ?_
    refine suffixExt_bind (suffixExt_parse_list (suffixExt_parse_field cp) _)
      fun fls => ?_
    refine suffixExt_bind suffixExt_u16 fun mc => ?_
    refine suffixExt_bind (suffixExt_parse_list (suffixExt_parse_method cp) _)
      fun mts => ?_
    refine suffixExt_bind suffixExt_u16 fun ac => ?_
    refine suffixExt_bind (suffixExt_parse_list (suffixExt_parse_attribute cp) _)
      fun ats => ?_
    exact suffixExt_pure _
  exact hext B S r cf h

/-- Claim C9 witness bytes: a minimal classfile (empty pool, no
interfaces, fields, methods or attributes). -/
def minimalClassfileBytes : List Nat :=
  [0xca, 0xfe, 0xba, 0xbe, 0x00, 0x00, 0x00, 0x00, 0x00, 0x00,
   0x00, 0x00, 0x00, 0x00, 0x00, 0x00, 0x00, 0x00, 0x00, 0x00,
   0x00, 0x00, 0x00, 0x00]

/-- The decoded form of `minimalClassfileBytes`. -/
def minimalClassfileValue : ClassFile :=
  ⟨0xcafebabe, 0, 0, [], ClassAccessFlags.from_bits 0, 0, 0, [], [], [], []⟩

/-- Claim C9 witness: appending a trailing byte to a successfully
parsed classfile leaves the decoded value unchanged and lands the
extra byte in the remainder. -/
theorem c9_classfile_suffix_stable_witness :
    parse_classfile (minimalClassfileBytes ++ [0xff]) =
      .ok [0xff] minimalClassfileValue := by
  have h := c9_classfile_suffix_stable minimalClassfileBytes [0xff] []
    minimalClassfileValue rfl
  simpa using h

end RJ
